import Mathlib

/-!
Verification of the axm-init check engine (src/axm_init): data model,
scoring/aggregation, check registry, engine orchestration and the compact
agent formatter, shallowly embedded from the Python source.

Python integers are embedded as `Int`, `round()` on the percentage as
round-half-to-even on the exact rational (CPython's `round` applied to the
float value `total_earned / total_weight * 100`), filesystem access as an
explicit record of the file entries the predicates inspect, and exceptions
escaping a predicate as `Except.error`.
-/

/-- Letter grades, from `models/check.py` (`class Grade(StrEnum)`). -/
inductive Grade where
  | A
  | B
  | C
  | D
  | F
deriving DecidableEq, Repr

/-- `Grade.value` — the string value of the enum member. -/
def Grade.val : Grade → String
  | .A => "A"
  | .B => "B"
  | .C => "C"
  | .D => "D"
  | .F => "F"

/-- `compute_grade` from `models/check.py`: inclusive lower bounds
A ≥ 90, B ≥ 75, C ≥ 60, D ≥ 40, else F. -/
def compute_grade (score : Int) : Grade :=
  if score ≥ 90 then Grade.A
  else if score ≥ 75 then Grade.B
  else if score ≥ 60 then Grade.C
  else if score ≥ 40 then Grade.D
  else Grade.F

/-- CPython `round` at an exact rational argument: round half to even. -/
def pyRound (q : ℚ) : Int :=
  let f : Int := ⌊q⌋
  let r : ℚ := q - f
  if r < 1/2 then f
  else if 1/2 < r then f + 1
  else if f % 2 = 0 then f else f + 1

/-- `CheckResult` from `models/check.py` (pydantic model; the `earned`
computed field is `CheckResult.earned` below). -/
structure CheckResult where
  name : String
  category : String
  passed : Bool
  weight : Int
  message : String
  details : List String
  fix : String
deriving DecidableEq, Repr

/-- Computed field `earned`: `weight if passed else 0`. -/
def CheckResult.earned (c : CheckResult) : Int :=
  if c.passed then c.weight else 0

/-- `CategoryScore` from `models/check.py`. -/
structure CategoryScore where
  category : String
  earned : Int
  total : Int
deriving DecidableEq, Repr

/-- `CategoryScore.from_checks`. -/
def CategoryScore.from_checks (category : String) (checks : List CheckResult) :
    CategoryScore :=
  { category := category
    earned := (checks.map CheckResult.earned).sum
    total := (checks.map CheckResult.weight).sum }

/-- One step of the `cat_map.setdefault(c.category, []).append(c)` loop in
`ProjectResult.from_checks`: insertion-ordered grouping. -/
def addToGroups (m : List (String × List CheckResult)) (c : CheckResult) :
    List (String × List CheckResult) :=
  match m with
  | [] => [(c.category, [c])]
  | (k, g) :: rest =>
      if k = c.category then (k, g ++ [c]) :: rest
      else (k, g) :: addToGroups rest c

/-- The `cat_map` dict of `ProjectResult.from_checks`: checks grouped by
category, first-seen category order, within-category order preserved. -/
def groupByCat (checks : List CheckResult) : List (String × List CheckResult) :=
  checks.foldl addToGroups []

/-- `ProjectResult` from `models/check.py`. `project_path` is kept as an
opaque resolved-path string; the `categories` dict as an insertion-ordered
association list. -/
structure ProjectResult where
  project_path : String
  checks : List CheckResult
  score : Int
  grade : Grade
  categories : List (String × CategoryScore)
  failures : List CheckResult
deriving DecidableEq, Repr

/-- Sum of `c.weight` over a check list (`total_weight`). -/
def totalWeight (checks : List CheckResult) : Int :=
  (checks.map CheckResult.weight).sum

/-- Sum of `c.earned` over a check list (`total_earned`). -/
def totalEarned (checks : List CheckResult) : Int :=
  (checks.map CheckResult.earned).sum

/-- `ProjectResult.from_checks`:
`score = round(total_earned / total_weight * 100) if total_weight > 0 else 0`,
grade from `compute_grade`, insertion-ordered category subtotals, failures
in original order. -/
def ProjectResult.from_checks (project_path : String)
    (checks : List CheckResult) : ProjectResult :=
  let total_weight := totalWeight checks
  let total_earned := totalEarned checks
  let score : Int :=
    if total_weight > 0 then
      pyRound ((total_earned : ℚ) / (total_weight : ℚ) * 100)
    else 0
  { project_path := project_path
    checks := checks
    score := score
    grade := compute_grade score
    categories :=
      (groupByCat checks).map fun p => (p.1, CategoryScore.from_checks p.1 p.2)
    failures := checks.filter fun c => !c.passed }


/-! ## Filesystem model

The check predicates observe the project directory only through a fixed set
of file probes: `exists()`, `is_dir()`, `read_text()`, `tomllib.load`,
`src.iterdir()`, `tests.rglob("test_*.py")` and the parent walk of
`_find_uv_lock`.  The model records exactly those observations.  A
`read_text()` that raises is an `Except.error`; `OSError`
(permission denied, `IsADirectoryError`, ...) and `UnicodeDecodeError` are
kept apart because `_find_uv_lock` catches only `OSError`. -/

/-- Kind of exception raised by a failing `read_text()`. -/
inductive ReadErr where
  | os
  | decode
deriving DecidableEq, Repr

/-- Values appearing in a parsed TOML document (`tomllib.load` output). -/
inductive Toml where
  | str (s : String)
  | bool (b : Bool)
  | int (n : Int)
  | arr (xs : List Toml)
  | table (kvs : List (String × Toml))

/-- What one on-disk regular file yields: the outcome of `read_text()` and,
for files the code feeds to `tomllib.load`, the parse outcome (`none` when
opening or parsing raises; an os-unreadable file also has `toml = none`
since the binary `open` fails as well). -/
structure FileNode where
  read : Except ReadErr String
  toml : Option (List (String × Toml))

/-- One path inside (or above) the project: missing, a directory, or a
regular file. -/
inductive Entry where
  | absent
  | dir
  | file (fd : FileNode)

/-- `Path.exists()`. -/
def Entry.exists? : Entry → Bool
  | .absent => false
  | _ => true

/-- `Path.read_text()`: raises `FileNotFoundError`/`IsADirectoryError`
(both `OSError`) unless the path is a readable regular file. -/
def Entry.readText : Entry → Except ReadErr String
  | .absent => .error .os
  | .dir => .error .os
  | .file fd => fd.read

/-- A child of `src/` as seen by `check_src_layout`/`check_py_typed`. -/
structure SrcChild where
  isDir : Bool
  hasInit : Bool
  hasPyTyped : Bool

/-- One ancestor directory of the project, as probed by `_find_uv_lock`:
its `pyproject.toml` entry and whether a sibling `uv.lock` exists. -/
structure ParentDir where
  pyproject : Entry
  uvLockExists : Bool

/-- The observations of one project directory made by the registry's
39 predicates. -/
structure FS where
  pyproject : Entry          -- pyproject.toml
  precommitConfig : Entry    -- .pre-commit-config.yaml
  gitHooksPrecommit : Bool   -- (.git/hooks/pre-commit).exists()
  makefile : Entry           -- Makefile
  ciYml : Entry              -- .github/workflows/ci.yml
  publishYml : Entry         -- .github/workflows/publish.yml
  dependabot : Bool          -- (.github/dependabot.yml).exists()
  mkdocs : Entry             -- mkdocs.yml
  genRefPages : Bool         -- (docs/gen_ref_pages.py).exists()
  readme : Entry             -- README.md
  srcEntry : Entry           -- src
  srcChildren : List SrcChild
  testsIsDir : Bool          -- (tests).is_dir()
  testFilesCount : Nat       -- len(list(tests.rglob("test_*.py")))
  contributing : Bool        -- CONTRIBUTING.md exists
  license : Bool             -- LICENSE exists
  uvLock : Bool              -- (project/"uv.lock").exists()
  pythonVersion : Bool       -- .python-version exists
  changelogMd : Bool         -- CHANGELOG.md exists
  parents : List ParentDir   -- project.resolve().parents, nearest first

/-- An empty or nonexistent project directory: nothing is present. -/
def emptyFS : FS :=
  { pyproject := .absent, precommitConfig := .absent,
    gitHooksPrecommit := false, makefile := .absent, ciYml := .absent,
    publishYml := .absent, dependabot := false, mkdocs := .absent,
    genRefPages := false, readme := .absent, srcEntry := .absent,
    srcChildren := [], testsIsDir := false, testFilesCount := 0,
    contributing := false, license := false, uvLock := false,
    pythonVersion := false, changelogMd := false, parents := [] }

/-! ## String and TOML helpers mirroring the Python operations used.

Python raises `AttributeError`/`TypeError` when `.get`, `in` or iteration
hits a TOML value of an unexpected shape (e.g. `tool = 5`); those
dynamic-typing error paths are not modelled — the helpers below return the
neutral value instead, matching Python on every shape the checks expect. -/

/-- Python `needle in hay` for strings (`needle` non-empty). -/
def strContains (hay needle : String) : Bool :=
  (hay.splitOn needle).length ≥ 2

/-- `dict.get(k, default)` on a TOML value. -/
def Toml.get (t : Toml) (k : String) (d : Toml) : Toml :=
  match t with
  | .table kvs =>
      match kvs.find? (fun q => q.1 == k) with
      | some q => q.2
      | none => d
  | _ => d

/-- `dict.get(k)` (default `None`) on a TOML value. -/
def Toml.getOpt (t : Toml) (k : String) : Option Toml :=
  match t with
  | .table kvs => (kvs.find? (fun q => q.1 == k)).map (fun q => q.2)
  | _ => none

/-- `dict.keys()` on a TOML value. -/
def Toml.keys : Toml → List String
  | .table kvs => kvs.map (fun q => q.1)
  | _ => []

/-- Python `x in t`: substring test on strings, element equality on lists,
key membership on dicts. -/
def Toml.containsStr (t : Toml) (x : String) : Bool :=
  match t with
  | .str s => strContains s x
  | .arr xs => xs.any fun v => match v with | .str s => s == x | _ => false
  | .table kvs => kvs.any fun q => q.1 == x
  | _ => false

/-- `any(p(r) for r in t)` over a TOML list. -/
def Toml.anyElem (t : Toml) (p : Toml → Bool) : Bool :=
  match t with
  | .arr xs => xs.any p
  | _ => false

/-- Python truthiness of an optional TOML value (`if not cfg.get("k")`). -/
def tomlTruthy : Option Toml → Bool
  | none => false
  | some (.str s) => s ≠ ""
  | some (.bool b) => b
  | some (.int n) => n ≠ 0
  | some (.arr xs) => !xs.isEmpty
  | some (.table kvs) => !kvs.isEmpty

/-- `" ".join(str(d) for d in t)` over a TOML list of strings. -/
def Toml.joinStrs (t : Toml) : String :=
  match t with
  | .arr xs =>
      String.intercalate " " (xs.map fun v =>
        match v with | .str s => s | _ => "")
  | _ => ""

/-- The string elements of a TOML list (used where the code builds
`set(...)` from a TOML array of rule codes). -/
def Toml.strElems (t : Toml) : List String :=
  match t with
  | .arr xs => xs.filterMap fun v =>
      match v with | .str s => some s | _ => none
  | _ => []

/-- `any(c.startswith(prefix) for c in t)` over a TOML list. -/
def Toml.anyStartsWith (t : Toml) (pre : String) : Bool :=
  match t with
  | .arr xs => xs.any fun v =>
      match v with | .str s => pre.isPrefixOf s | _ => false
  | _ => false

/-- Code-point lexicographic `≤` on character lists (Python's string
ordering). -/
def charListLe : List Char → List Char → Bool
  | [], _ => true
  | _ :: _, [] => false
  | c :: cs, d :: ds =>
      if c.toNat < d.toNat then true
      else if d.toNat < c.toNat then false
      else charListLe cs ds

/-- Python `a <= b` on strings: code-point lexicographic order. -/
def pyStrLe (a b : String) : Bool := charListLe a.data b.data

/-- Insert into a sorted list of strings. -/
def insertSorted (s : String) : List String → List String
  | [] => [s]
  | t :: ts => if pyStrLe s t then s :: t :: ts else t :: insertSorted s ts

/-- Python `sorted` on a list of strings. -/
def sortStrings (l : List String) : List String :=
  l.foldr insertSorted []

/-! ## Check predicates — `checks/tooling.py` (7 checks, 16 pts actual;
the module docstring still says "6 checks, 14 pts"). -/

/-- `_read_precommit`: `.pre-commit-config.yaml` content, `None` if the
file does not exist; `read_text()` may raise. -/
def _read_precommit (fs : FS) : Except ReadErr (Option String) :=
  if !fs.precommitConfig.exists? then .ok none
  else
    match fs.precommitConfig.readText with
    | .ok t => .ok (some t)
    | .error e => .error e

/-- Check 13: `.pre-commit-config.yaml` exists. -/
def check_precommit_exists (fs : FS) : Except ReadErr CheckResult :=
  match _read_precommit fs with
  | .error e => .error e
  | .ok none =>
      .ok { name := "tooling.precommit_exists", category := "tooling",
            passed := false, weight := 3,
            message := ".pre-commit-config.yaml not found", details := [],
            fix := "Create .pre-commit-config.yaml with ruff, mypy, and conventional-commit hooks." }
  | .ok (some _) =>
      .ok { name := "tooling.precommit_exists", category := "tooling",
            passed := true, weight := 3,
            message := ".pre-commit-config.yaml found", details := [],
            fix := "" }

/-- Check 14: ruff hook present in pre-commit. -/
def check_precommit_ruff (fs : FS) : Except ReadErr CheckResult :=
  match _read_precommit fs with
  | .error e => .error e
  | .ok content =>
      if content.isNone || !strContains (content.getD "") "ruff" then
        .ok { name := "tooling.precommit_ruff", category := "tooling",
              passed := false, weight := 2,
              message := "No ruff hook in pre-commit",
              details := ["ruff-pre-commit hook should be configured"],
              fix := "Add ruff-pre-commit repo with ruff and ruff-format hooks." }
      else
        .ok { name := "tooling.precommit_ruff", category := "tooling",
              passed := true, weight := 2, message := "Ruff hook present",
              details := [], fix := "" }

/-- Check 15: mypy hook present in pre-commit. -/
def check_precommit_mypy (fs : FS) : Except ReadErr CheckResult :=
  match _read_precommit fs with
  | .error e => .error e
  | .ok content =>
      if content.isNone || !strContains (content.getD "") "mypy" then
        .ok { name := "tooling.precommit_mypy", category := "tooling",
              passed := false, weight := 2,
              message := "No mypy hook in pre-commit",
              details := ["mirrors-mypy hook should be configured"],
              fix := "Add pre-commit/mirrors-mypy repo with mypy hook." }
      else
        .ok { name := "tooling.precommit_mypy", category := "tooling",
              passed := true, weight := 2, message := "MyPy hook present",
              details := [], fix := "" }

/-- Check 16: conventional-pre-commit hook present. -/
def check_precommit_conventional (fs : FS) : Except ReadErr CheckResult :=
  match _read_precommit fs with
  | .error e => .error e
  | .ok content =>
      if content.isNone ||
          !strContains (content.getD "") "conventional-pre-commit" then
        .ok { name := "tooling.precommit_conventional", category := "tooling",
              passed := false, weight := 2,
              message := "No conventional-commits hook in pre-commit",
              details := ["conventional-pre-commit hook enforces commit message format"],
              fix := "Add compilerla/conventional-pre-commit repo." }
      else
        .ok { name := "tooling.precommit_conventional", category := "tooling",
              passed := true, weight := 2,
              message := "Conventional commits hook present",
              details := [], fix := "" }

/-- Basic hooks required by check 17. -/
def precommitBasicRequired : List String :=
  ["trailing-whitespace", "end-of-file-fixer", "check-yaml"]

/-- Check 17: basic hooks present. -/
def check_precommit_basic (fs : FS) : Except ReadErr CheckResult :=
  match _read_precommit fs with
  | .error e => .error e
  | .ok none =>
      .ok { name := "tooling.precommit_basic", category := "tooling",
            passed := false, weight := 1, message := "No pre-commit config",
            details := ["Missing: " ++
              String.intercalate ", " precommitBasicRequired],
            fix := "Add pre-commit-hooks repo with basic hooks." }
  | .ok (some c) =>
      let missing := precommitBasicRequired.filter fun h => !strContains c h
      if !missing.isEmpty then
        .ok { name := "tooling.precommit_basic", category := "tooling",
              passed := false, weight := 1,
              message := "Missing " ++ toString missing.length ++
                " basic hook(s)",
              details := ["Missing: " ++ String.intercalate ", " missing],
              fix := "Add " ++ String.intercalate ", " missing ++
                " to pre-commit-hooks." }
      else
        .ok { name := "tooling.precommit_basic", category := "tooling",
              passed := true, weight := 1, message := "Basic hooks present",
              details := [], fix := "" }

/-- Check 19 (duplicate number in the source): pre-commit hooks activated
in `.git/hooks/`; passes outright when there is no pre-commit config. -/
def check_precommit_installed (fs : FS) : Except ReadErr CheckResult :=
  if !fs.precommitConfig.exists? then
    .ok { name := "tooling.precommit_installed", category := "tooling",
          passed := true, weight := 2,
          message := "No pre-commit config (nothing to install)",
          details := [], fix := "" }
  else if fs.gitHooksPrecommit then
    .ok { name := "tooling.precommit_installed", category := "tooling",
          passed := true, weight := 2,
          message := "Pre-commit hooks installed", details := [], fix := "" }
  else
    .ok { name := "tooling.precommit_installed", category := "tooling",
          passed := false, weight := 2,
          message := "Pre-commit hooks not installed",
          details := [".pre-commit-config.yaml exists but hooks are not activated"],
          fix := "Run \x27pre-commit install\x27 to activate hooks." }

/-- Makefile targets required by check 18. -/
def makefileTargets : List String :=
  ["install", "check", "lint", "format", "test", "audit", "clean",
   "docs-serve"]

/-- Check 18: Makefile with standard targets. -/
def check_makefile (fs : FS) : Except ReadErr CheckResult :=
  if !fs.makefile.exists? then
    .ok { name := "tooling.makefile", category := "tooling",
          passed := false, weight := 4, message := "Makefile not found",
          details := [],
          fix := "Create a Makefile with install, check, lint, format, test, audit, clean, docs-serve targets." }
  else
    match fs.makefile.readText with
    | .error e => .error e
    | .ok content =>
        let missing := makefileTargets.filter fun t =>
          !strContains content (t ++ ":")
        if !missing.isEmpty then
          .ok { name := "tooling.makefile", category := "tooling",
                passed := false, weight := 4,
                message := "Makefile missing " ++ toString missing.length ++
                  " target(s)",
                details := ["Missing targets: " ++
                  String.intercalate ", " missing],
                fix := "Add targets to Makefile: " ++
                  String.intercalate ", " missing ++ "." }
        else
          .ok { name := "tooling.makefile", category := "tooling",
                passed := true, weight := 4, message := "Makefile complete",
                details := [], fix := "" }

/-! ## Check predicates — `checks/ci.py` (7 checks, 18 pts). -/

/-- `_read_ci`: `.github/workflows/ci.yml` content, `None` if missing. -/
def _read_ci (fs : FS) : Except ReadErr (Option String) :=
  if !fs.ciYml.exists? then .ok none
  else
    match fs.ciYml.readText with
    | .ok t => .ok (some t)
    | .error e => .error e

/-- Check 8: CI workflow exists. -/
def check_ci_workflow_exists (fs : FS) : Except ReadErr CheckResult :=
  match _read_ci fs with
  | .error e => .error e
  | .ok none =>
      .ok { name := "ci.workflow_exists", category := "ci", passed := false,
            weight := 4, message := "CI workflow not found",
            details := ["Expected: .github/workflows/ci.yml"],
            fix := "Create .github/workflows/ci.yml with lint, test, and security jobs." }
  | .ok (some _) =>
      .ok { name := "ci.workflow_exists", category := "ci", passed := true,
            weight := 4, message := "CI workflow found", details := [],
            fix := "" }

/-- Check 9: CI has a lint job. -/
def check_ci_lint_job (fs : FS) : Except ReadErr CheckResult :=
  match _read_ci fs with
  | .error e => .error e
  | .ok content =>
      if content.isNone || !strContains (content.getD "").toLower "lint" then
        .ok { name := "ci.lint_job", category := "ci", passed := false,
              weight := 3, message := "No lint job in CI",
              details := ["CI should have a lint/type-check job"],
              fix := "Add a lint job to .github/workflows/ci.yml that runs `make lint`." }
      else
        .ok { name := "ci.lint_job", category := "ci", passed := true,
              weight := 3, message := "Lint job present", details := [],
              fix := "" }

/-- Check 10: CI has a test job. -/
def check_ci_test_job (fs : FS) : Except ReadErr CheckResult :=
  match _read_ci fs with
  | .error e => .error e
  | .ok content =>
      if content.isNone || !strContains (content.getD "").toLower "test" then
        .ok { name := "ci.test_job", category := "ci", passed := false,
              weight := 3, message := "No test job in CI",
              details := ["CI should have a test job with python-version matrix"],
              fix := "Add a test job with strategy.matrix.python-version." }
      else
        .ok { name := "ci.test_job", category := "ci", passed := true,
              weight := 3, message := "Test job present", details := [],
              fix := "" }

/-- Check 11: CI has a security/pip-audit job. -/
def check_ci_security_job (fs : FS) : Except ReadErr CheckResult :=
  match _read_ci fs with
  | .error e => .error e
  | .ok content =>
      if content.isNone || !strContains (content.getD "").toLower "audit" then
        .ok { name := "ci.security_job", category := "ci", passed := false,
              weight := 2, message := "No security audit job in CI",
              details := ["CI should run pip-audit for dependency scanning"],
              fix := "Add a security job that runs `uv run pip-audit`." }
      else
        .ok { name := "ci.security_job", category := "ci", passed := true,
              weight := 2, message := "Security audit job present",
              details := [], fix := "" }

/-- Check 12: CI uploads coverage. -/
def check_ci_coverage_upload (fs : FS) : Except ReadErr CheckResult :=
  match _read_ci fs with
  | .error e => .error e
  | .ok content =>
      if content.isNone ||
          (!strContains (content.getD "").toLower "coveralls" &&
           !strContains (content.getD "").toLower "codecov") then
        .ok { name := "ci.coverage_upload", category := "ci", passed := false,
              weight := 2, message := "No coverage upload in CI",
              details := ["CI should upload coverage to Coveralls or Codecov"],
              fix := "Add coverallsapp/github-action or codecov/codecov-action step." }
      else
        .ok { name := "ci.coverage_upload", category := "ci", passed := true,
              weight := 2, message := "Coverage upload configured",
              details := [], fix := "" }

/-- `_read_publish`: `.github/workflows/publish.yml` content, `None` if
missing. -/
def _read_publish (fs : FS) : Except ReadErr (Option String) :=
  if !fs.publishYml.exists? then .ok none
  else
    match fs.publishYml.readText with
    | .ok t => .ok (some t)
    | .error e => .error e

/-- Check 34: publish.yml uses Trusted Publishing (OIDC) without API
token. -/
def check_trusted_publishing (fs : FS) : Except ReadErr CheckResult :=
  match _read_publish fs with
  | .error e => .error e
  | .ok content =>
      if content.isNone || !strContains (content.getD "") "id-token" then
        .ok { name := "ci.trusted_publishing", category := "ci",
              passed := false, weight := 2,
              message := "No Trusted Publishing (OIDC) in publish workflow",
              details := ["publish.yml should use permissions: id-token: write"],
              fix := "Add `permissions: id-token: write` to publish.yml for PyPI OIDC." }
      else if strContains (content.getD "") "PYPI_API_TOKEN" then
        .ok { name := "ci.trusted_publishing", category := "ci",
              passed := false, weight := 2,
              message := "publish.yml still uses PYPI_API_TOKEN alongside OIDC",
              details := ["Remove secrets.PYPI_API_TOKEN to use true Trusted Publishing"],
              fix := "Remove `password: $\x7b\x7b secrets.PYPI_API_TOKEN \x7d\x7d` from publish.yml — OIDC handles auth automatically." }
      else
        .ok { name := "ci.trusted_publishing", category := "ci",
              passed := true, weight := 2,
              message := "Trusted Publishing (OIDC) configured",
              details := [], fix := "" }

/-- Check 35: `.github/dependabot.yml` exists. -/
def check_dependabot (fs : FS) : Except ReadErr CheckResult :=
  if !fs.dependabot then
    .ok { name := "ci.dependabot", category := "ci", passed := false,
          weight := 2, message := "Dependabot config not found",
          details := ["Dependabot automates dependency security updates"],
          fix := "Create .github/dependabot.yml with pip and github-actions ecosystems." }
  else
    .ok { name := "ci.dependabot", category := "ci", passed := true,
          weight := 2, message := "Dependabot configured", details := [],
          fix := "" }

/-! ## Check predicates — `checks/docs.py` (5 checks, 14 pts). -/

/-- Check 19: mkdocs.yml exists. -/
def check_mkdocs_exists (fs : FS) : Except ReadErr CheckResult :=
  if !fs.mkdocs.exists? then
    .ok { name := "docs.mkdocs_exists", category := "docs", passed := false,
          weight := 3, message := "mkdocs.yml not found", details := [],
          fix := "Create mkdocs.yml with Material theme and Diátaxis navigation." }
  else
    .ok { name := "docs.mkdocs_exists", category := "docs", passed := true,
          weight := 3, message := "mkdocs.yml found", details := [],
          fix := "" }

/-- Check 20: nav has the four Diátaxis sections. -/
def check_diataxis_nav (fs : FS) : Except ReadErr CheckResult :=
  if !fs.mkdocs.exists? then
    .ok { name := "docs.diataxis_nav", category := "docs", passed := false,
          weight := 3, message := "mkdocs.yml not found", details := [],
          fix := "Create mkdocs.yml with Diátaxis nav structure." }
  else
    match fs.mkdocs.readText with
    | .error e => .error e
    | .ok raw =>
        let content := raw.toLower
        let sections : List (String × Bool) :=
          [("Tutorials", strContains content "tutorial"),
           ("How-To", strContains content "how-to" ||
              strContains content "howto"),
           ("Reference", strContains content "reference"),
           ("Explanation", strContains content "explanation")]
        let missing := (sections.filter fun q => !q.2).map fun q => q.1
        let present := (sections.filter fun q => q.2).map fun q => q.1
        if !missing.isEmpty then
          .ok { name := "docs.diataxis_nav", category := "docs",
                passed := false, weight := 3,
                message := "Diátaxis nav incomplete — missing " ++
                  toString missing.length ++ " section(s)",
                details := ["Missing: " ++ String.intercalate ", " missing,
                            "Present: " ++ String.intercalate ", " present],
                fix := "Add " ++ String.intercalate ", " missing ++
                  " section(s) to mkdocs.yml nav." }
        else
          .ok { name := "docs.diataxis_nav", category := "docs",
                passed := true, weight := 3,
                message := "Full Diátaxis nav structure", details := [],
                fix := "" }

/-- Check 21: gen-files + literate-nav + mkdocstrings plugins. -/
def check_docs_plugins (fs : FS) : Except ReadErr CheckResult :=
  if !fs.mkdocs.exists? then
    .ok { name := "docs.plugins", category := "docs", passed := false,
          weight := 3, message := "mkdocs.yml not found", details := [],
          fix := "Create mkdocs.yml with gen-files, literate-nav, mkdocstrings plugins." }
  else
    match fs.mkdocs.readText with
    | .error e => .error e
    | .ok content =>
        let required : List (String × Bool) :=
          [("gen-files", strContains content "gen-files"),
           ("literate-nav", strContains content "literate-nav"),
           ("mkdocstrings", strContains content "mkdocstrings")]
        let missing := (required.filter fun q => !q.2).map fun q => q.1
        if !missing.isEmpty then
          .ok { name := "docs.plugins", category := "docs", passed := false,
                weight := 3,
                message := "Missing " ++ toString missing.length ++
                  " plugin(s)",
                details := ["Missing: " ++ String.intercalate ", " missing],
                fix := "Add " ++ String.intercalate ", " missing ++
                  " to mkdocs.yml plugins." }
        else
          .ok { name := "docs.plugins", category := "docs", passed := true,
                weight := 3, message := "All plugins configured",
                details := [], fix := "" }

/-- Check 22: `docs/gen_ref_pages.py` exists. -/
def check_docs_gen_ref_pages (fs : FS) : Except ReadErr CheckResult :=
  if !fs.genRefPages then
    .ok { name := "docs.gen_ref_pages", category := "docs", passed := false,
          weight := 2, message := "docs/gen_ref_pages.py not found",
          details := ["Auto-gen script needed for mkdocstrings API reference"],
          fix := "Create docs/gen_ref_pages.py for automatic API reference generation." }
  else
    .ok { name := "docs.gen_ref_pages", category := "docs", passed := true,
          weight := 2, message := "gen_ref_pages.py found", details := [],
          fix := "" }

/-- Check 23: README.md sections. -/
def check_readme (fs : FS) : Except ReadErr CheckResult :=
  if !fs.readme.exists? then
    .ok { name := "docs.readme", category := "docs", passed := false,
          weight := 3, message := "README.md not found", details := [],
          fix := "Create README.md following axm-bib standard." }
  else
    match fs.readme.readText with
    | .error e => .error e
    | .ok content =>
        let required : List (String × Bool) :=
          [("Features", strContains content "## Features" ||
              strContains content.toLower "## features"),
           ("Installation", strContains content "## Installation" ||
              strContains content.toLower "## install"),
           ("Development", strContains content "## Development" ||
              strContains content.toLower "## develop"),
           ("License", strContains content "## License" ||
              strContains content.toLower "## license")]
        let missing := (required.filter fun q => !q.2).map fun q => q.1
        if !missing.isEmpty then
          .ok { name := "docs.readme", category := "docs", passed := false,
                weight := 3,
                message := "README missing " ++ toString missing.length ++
                  " section(s)",
                details := ["Missing: " ++ String.intercalate ", " missing],
                fix := "Add " ++ String.intercalate ", " missing ++
                  " section(s) to README.md." }
        else
          .ok { name := "docs.readme", category := "docs", passed := true,
                weight := 3, message := "README follows standard",
                details := [], fix := "" }

/-! ## Check predicates — `checks/structure.py` (7 checks, 17 pts). -/

/-- `Path.is_dir()`. -/
def Entry.isDir : Entry → Bool
  | .dir => true
  | _ => false

/-- Check 24: `src/<pkg>/` layout with `__init__.py`. -/
def check_src_layout (fs : FS) : Except ReadErr CheckResult :=
  if !fs.srcEntry.isDir then
    .ok { name := "structure.src_layout", category := "structure",
          passed := false, weight := 4, message := "src/ directory not found",
          details := ["Expected: src/<package_name>/__init__.py"],
          fix := "Migrate to src/ layout: move package into src/<package_name>/." }
  else
    let packages := fs.srcChildren.filter fun d => d.isDir && d.hasInit
    if packages.isEmpty then
      .ok { name := "structure.src_layout", category := "structure",
            passed := false, weight := 4,
            message := "No Python package found in src/",
            details := ["src/ exists but contains no package with __init__.py"],
            fix := "Create src/<package_name>/__init__.py." }
    else
      .ok { name := "structure.src_layout", category := "structure",
            passed := true, weight := 4,
            message := "src/ layout with " ++ toString packages.length ++
              " package(s)",
            details := [], fix := "" }

/-- Check 25: `py.typed` marker in a package under `src/`. -/
def check_py_typed (fs : FS) : Except ReadErr CheckResult :=
  if !fs.srcEntry.isDir then
    .ok { name := "structure.py_typed", category := "structure",
          passed := false, weight := 2, message := "src/ directory not found",
          details := [],
          fix := "Create src/<package_name>/py.typed marker file." }
  else if (fs.srcChildren.filter fun d => d.isDir && d.hasInit).any
      (fun p => p.hasPyTyped) then
    .ok { name := "structure.py_typed", category := "structure",
          passed := true, weight := 2, message := "py.typed marker found",
          details := [], fix := "" }
  else
    .ok { name := "structure.py_typed", category := "structure",
          passed := false, weight := 2,
          message := "py.typed marker not found",
          details := ["PEP 561: py.typed marks package as providing type information"],
          fix := "Create an empty src/<package_name>/py.typed file." }

/-- Check 26: `tests/` directory with at least one `test_*.py` file. -/
def check_tests_dir (fs : FS) : Except ReadErr CheckResult :=
  if !fs.testsIsDir then
    .ok { name := "structure.tests_dir", category := "structure",
          passed := false, weight := 3,
          message := "tests/ directory not found", details := [],
          fix := "Create tests/ directory with test files." }
  else if fs.testFilesCount = 0 then
    .ok { name := "structure.tests_dir", category := "structure",
          passed := false, weight := 3,
          message := "No test files found in tests/",
          details := ["Expected: tests/test_*.py files"],
          fix := "Add test files matching test_*.py pattern." }
  else
    .ok { name := "structure.tests_dir", category := "structure",
          passed := true, weight := 3,
          message := toString fs.testFilesCount ++ " test file(s) found",
          details := [], fix := "" }

/-- Check 27: CONTRIBUTING.md exists. -/
def check_contributing (fs : FS) : Except ReadErr CheckResult :=
  if !fs.contributing then
    .ok { name := "structure.contributing", category := "structure",
          passed := false, weight := 2,
          message := "CONTRIBUTING.md not found", details := [],
          fix := "Create CONTRIBUTING.md with dev setup and commit conventions." }
  else
    .ok { name := "structure.contributing", category := "structure",
          passed := true, weight := 2, message := "CONTRIBUTING.md found",
          details := [], fix := "" }

/-- Check 28: LICENSE file exists. -/
def check_license_file (fs : FS) : Except ReadErr CheckResult :=
  if !fs.license then
    .ok { name := "structure.license", category := "structure",
          passed := false, weight := 3, message := "LICENSE file not found",
          details := [],
          fix := "Create a LICENSE file (MIT, Apache-2.0, or EUPL-1.2)." }
  else
    .ok { name := "structure.license", category := "structure",
          passed := true, weight := 3, message := "LICENSE file found",
          details := [], fix := "" }

/-- Where `_find_uv_lock` found the lock file. -/
inductive LockLoc where
  | inProject
  | atWorkspaceRoot
deriving DecidableEq, Repr

/-- The parent-directory walk of `_find_uv_lock`: a workspace root is a
parent whose `pyproject.toml` contains `[tool.uv.workspace]`; its read
errors are caught for `OSError` only (`UnicodeDecodeError` escapes). -/
def findUvLockGo : List ParentDir → Except ReadErr (Option LockLoc)
  | [] => .ok none
  | p :: rest =>
      if p.pyproject.exists? then
        match p.pyproject.readText with
        | .ok text =>
            if strContains text "[tool.uv.workspace]" then
              if p.uvLockExists then .ok (some .atWorkspaceRoot)
              else .ok none
            else findUvLockGo rest
        | .error .os => findUvLockGo rest
        | .error .decode => .error .decode
      else findUvLockGo rest

/-- `_find_uv_lock`: local `uv.lock` first, then the workspace-root walk. -/
def _find_uv_lock (fs : FS) : Except ReadErr (Option LockLoc) :=
  if fs.uvLock then .ok (some .inProject) else findUvLockGo fs.parents

/-- Check 32 (structure): `uv.lock` committed. -/
def check_uv_lock (fs : FS) : Except ReadErr CheckResult :=
  match _find_uv_lock fs with
  | .error e => .error e
  | .ok none =>
      .ok { name := "structure.uv_lock", category := "structure",
            passed := false, weight := 2, message := "uv.lock not found",
            details := ["Commit uv.lock for reproducible dependency resolution"],
            fix := "Run `uv lock` and commit the generated uv.lock file." }
  | .ok (some loc) =>
      .ok { name := "structure.uv_lock", category := "structure",
            passed := true, weight := 2,
            message := match loc with
              | .atWorkspaceRoot => "uv.lock found (workspace root)"
              | .inProject => "uv.lock found",
            details := [], fix := "" }

/-- Check 33: `.python-version` exists. -/
def check_python_version (fs : FS) : Except ReadErr CheckResult :=
  if !fs.pythonVersion then
    .ok { name := "structure.python_version", category := "structure",
          passed := false, weight := 1, message := ".python-version not found",
          details := ["Pin Python version for consistent environments"],
          fix := "Run `uv python pin 3.12` to create .python-version." }
  else
    .ok { name := "structure.python_version", category := "structure",
          passed := true, weight := 1, message := ".python-version found",
          details := [], fix := "" }

/-! ## Check predicates — `checks/pyproject.py` (9 checks, 27 pts),
`checks/deps.py` (2 checks, 5 pts), `checks/changelog.py` (2 checks,
5 pts). -/

/-- `_load_toml`: parsed `pyproject.toml`, `None` if the file is missing or
anything raises while opening/parsing (the `try`/`except Exception`). -/
def _load_toml (fs : FS) : Option (List (String × Toml)) :=
  match fs.pyproject with
  | .file fd => fd.toml
  | _ => none

/-- Check 1: pyproject.toml exists and is parsable. -/
def check_pyproject_exists (fs : FS) : Except ReadErr CheckResult :=
  if !fs.pyproject.exists? then
    .ok { name := "pyproject.exists", category := "pyproject",
          passed := false, weight := 4, message := "pyproject.toml not found",
          details := [],
          fix := "Create a pyproject.toml at the project root." }
  else
    match _load_toml fs with
    | none =>
        .ok { name := "pyproject.exists", category := "pyproject",
              passed := false, weight := 4,
              message := "pyproject.toml is unparsable",
              details := ["File exists but contains invalid TOML"],
              fix := "Fix TOML syntax errors in pyproject.toml." }
    | some _ =>
        .ok { name := "pyproject.exists", category := "pyproject",
              passed := true, weight := 4, message := "pyproject.toml found",
              details := [], fix := "" }

/-- The source's `required` set `{Homepage, Documentation, Repository,
Issues}`, kept in sorted order since it is only consumed through
`sorted(...)`, `len` and emptiness. -/
def requiredUrls : List String :=
  ["Documentation", "Homepage", "Issues", "Repository"]

/-- Check 2: `[project.urls]` with 4 keys. -/
def check_pyproject_urls (fs : FS) : Except ReadErr CheckResult :=
  match _load_toml fs with
  | none =>
      .ok { name := "pyproject.urls", category := "pyproject",
            passed := false, weight := 3,
            message := "pyproject.toml not found or unparsable",
            details := [],
            fix := "Create pyproject.toml with [project.urls] section." }
  | some data =>
      let urls := ((Toml.table data).get "project" (.table [])).get "urls"
        (.table [])
      let present := requiredUrls.filter fun k => urls.keys.contains k
      let missing := requiredUrls.filter fun k => !urls.keys.contains k
      if !missing.isEmpty then
        .ok { name := "pyproject.urls", category := "pyproject",
              passed := false, weight := 3,
              message := "Missing " ++ toString missing.length ++
                " URL(s) in [project.urls]",
              details := ["Missing: " ++ String.intercalate ", " missing,
                          "Present: " ++ String.intercalate ", " present],
              fix := "Add " ++ String.intercalate ", " missing ++
                " to [project.urls] in pyproject.toml." }
      else
        .ok { name := "pyproject.urls", category := "pyproject",
              passed := true, weight := 3, message := "All 4 URLs present",
              details := [], fix := "" }

/-- Check 3: `dynamic = ["version"]` + hatch-vcs. -/
def check_pyproject_dynamic_version (fs : FS) : Except ReadErr CheckResult :=
  match _load_toml fs with
  | none =>
      .ok { name := "pyproject.dynamic_version", category := "pyproject",
            passed := false, weight := 3,
            message := "pyproject.toml not found or unparsable",
            details := [],
            fix := "Create pyproject.toml with dynamic version using hatch-vcs." }
  | some data =>
      let dynamic := ((Toml.table data).get "project" (.table [])).get
        "dynamic" (.arr [])
      let requires := ((Toml.table data).get "build-system" (.table [])).get
        "requires" (.arr [])
      let has_dynamic := dynamic.containsStr "version"
      let has_hatch_vcs := requires.anyElem fun r => r.containsStr "hatch-vcs"
      let problems :=
        (if !has_dynamic then ["Missing: dynamic = [\"version\"]"] else []) ++
        (if !has_hatch_vcs then
          ["Missing: hatch-vcs in build-system.requires"] else [])
      if !problems.isEmpty then
        .ok { name := "pyproject.dynamic_version", category := "pyproject",
              passed := false, weight := 3,
              message := "Version is not dynamically managed",
              details := problems,
              fix := "Add hatch-vcs to build-system.requires and set dynamic = [\"version\"]." }
      else
        .ok { name := "pyproject.dynamic_version", category := "pyproject",
              passed := true, weight := 3,
              message := "Dynamic version with hatch-vcs", details := [],
              fix := "" }

/-- The required `[tool.mypy]` settings of check 4, in the source's dict
order. -/
def mypyRequired : List String :=
  ["strict", "pretty", "disallow_incomplete_defs", "check_untyped_defs"]

/-- Check 4: strict mypy settings (`mypy.get(k) != True` marks `k`
missing; Python's `1 == True` coercion is not modelled). -/
def check_pyproject_mypy (fs : FS) : Except ReadErr CheckResult :=
  match _load_toml fs with
  | none =>
      .ok { name := "pyproject.mypy", category := "pyproject",
            passed := false, weight := 3,
            message := "pyproject.toml not found or unparsable",
            details := [],
            fix := "Create pyproject.toml with [tool.mypy] section." }
  | some data =>
      let mypy := ((Toml.table data).get "tool" (.table [])).get "mypy"
        (.table [])
      let missing := mypyRequired.filter fun k =>
        match mypy.getOpt k with
        | some (.bool true) => false
        | _ => true
      let present := mypyRequired.filter fun k => !missing.contains k
      if !missing.isEmpty then
        .ok { name := "pyproject.mypy", category := "pyproject",
              passed := false, weight := 3,
              message := "MyPy config incomplete — missing " ++
                toString missing.length ++ " setting(s)",
              details := ["Missing: " ++ String.intercalate ", " missing,
                          "Present: " ++ String.intercalate ", " present],
              fix := "Add " ++ String.intercalate ", "
                (missing.map fun k => k ++ " = true") ++ " to [tool.mypy]." }
      else
        .ok { name := "pyproject.mypy", category := "pyproject",
              passed := true, weight := 3, message := "MyPy fully configured",
              details := [], fix := "" }

/-- Check 5: ruff per-file-ignores + known-first-party. -/
def check_pyproject_ruff (fs : FS) : Except ReadErr CheckResult :=
  match _load_toml fs with
  | none =>
      .ok { name := "pyproject.ruff", category := "pyproject",
            passed := false, weight := 3,
            message := "pyproject.toml not found or unparsable",
            details := [],
            fix := "Create pyproject.toml with [tool.ruff.lint] section." }
  | some data =>
      let ruff_lint := (((Toml.table data).get "tool" (.table [])).get "ruff"
        (.table [])).get "lint" (.table [])
      let isort := ruff_lint.get "isort" (.table [])
      let problems :=
        (if !ruff_lint.containsStr "per-file-ignores" then
          ["Missing: [tool.ruff.lint.per-file-ignores]"] else []) ++
        (if !isort.containsStr "known-first-party" then
          ["Missing: known-first-party in [tool.ruff.lint.isort]"] else [])
      if !problems.isEmpty then
        .ok { name := "pyproject.ruff", category := "pyproject",
              passed := false, weight := 3,
              message := "Ruff config incomplete", details := problems,
              fix := "Add per-file-ignores for tests and known-first-party to ruff config." }
      else
        .ok { name := "pyproject.ruff", category := "pyproject",
              passed := true, weight := 3, message := "Ruff fully configured",
              details := [], fix := "" }

/-- Check 6: pytest config completeness. -/
def check_pyproject_pytest (fs : FS) : Except ReadErr CheckResult :=
  match _load_toml fs with
  | none =>
      .ok { name := "pyproject.pytest", category := "pyproject",
            passed := false, weight := 4,
            message := "pyproject.toml not found or unparsable",
            details := [],
            fix := "Create pyproject.toml with [tool.pytest.ini_options]." }
  | some data =>
      let pytest_cfg := (((Toml.table data).get "tool" (.table [])).get
        "pytest" (.table [])).get "ini_options" (.table [])
      let addopts := (pytest_cfg.get "addopts" (.arr [])).joinStrs
      let problems :=
        (if !strContains addopts "--strict-markers" then
          ["Missing: --strict-markers in addopts"] else []) ++
        (if !strContains addopts "--strict-config" then
          ["Missing: --strict-config in addopts"] else []) ++
        (if !strContains addopts "--import-mode=importlib" then
          ["Missing: --import-mode=importlib in addopts"] else []) ++
        (if !pytest_cfg.containsStr "pythonpath" then
          ["Missing: pythonpath = [\"src\"]"] else []) ++
        (if !pytest_cfg.containsStr "filterwarnings" then
          ["Missing: filterwarnings"] else [])
      if !problems.isEmpty then
        .ok { name := "pyproject.pytest", category := "pyproject",
              passed := false, weight := 4,
              message := "Pytest config incomplete — missing " ++
                toString problems.length ++ " setting(s)",
              details := problems,
              fix := "Add missing settings to [tool.pytest.ini_options]." }
      else
        .ok { name := "pyproject.pytest", category := "pyproject",
              passed := true, weight := 4,
              message := "Pytest fully configured", details := [], fix := "" }

/-- Check 7: coverage config. -/
def check_pyproject_coverage (fs : FS) : Except ReadErr CheckResult :=
  match _load_toml fs with
  | none =>
      .ok { name := "pyproject.coverage", category := "pyproject",
            passed := false, weight := 4,
            message := "pyproject.toml not found or unparsable",
            details := [],
            fix := "Create pyproject.toml with [tool.coverage] sections." }
  | some data =>
      let cov := ((Toml.table data).get "tool" (.table [])).get "coverage"
        (.table [])
      let run_cfg := cov.get "run" (.table [])
      let problems :=
        (if !tomlTruthy (run_cfg.getOpt "branch") then
          ["Missing: branch = true in [tool.coverage.run]"] else []) ++
        (if !tomlTruthy (run_cfg.getOpt "relative_files") then
          ["Missing: relative_files = true in [tool.coverage.run]"]
         else []) ++
        (if !cov.containsStr "xml" then
          ["Missing: [tool.coverage.xml] section"] else []) ++
        (if !(cov.get "report" (.table [])).containsStr "exclude_lines" then
          ["Missing: exclude_lines in [tool.coverage.report]"] else [])
      if !problems.isEmpty then
        .ok { name := "pyproject.coverage", category := "pyproject",
              passed := false, weight := 4,
              message := "Coverage config incomplete — missing " ++
                toString problems.length ++ " setting(s)",
              details := problems,
              fix := "Add missing settings to [tool.coverage] sections." }
      else
        .ok { name := "pyproject.coverage", category := "pyproject",
              passed := true, weight := 4,
              message := "Coverage fully configured", details := [],
              fix := "" }

/-- The required classifier prefixes of check 36, in the source's dict
order. -/
def classifierPrefixes : List (String × String) :=
  [("Development Status", "Development Status ::"),
   ("Python version", "Programming Language :: Python :: 3"),
   ("Typed", "Typing :: Typed")]

/-- Check 36: required classifiers. -/
def check_pyproject_classifiers (fs : FS) : Except ReadErr CheckResult :=
  match _load_toml fs with
  | none =>
      .ok { name := "pyproject.classifiers", category := "pyproject",
            passed := false, weight := 1,
            message := "pyproject.toml not found or unparsable",
            details := [],
            fix := "Add classifiers to [project] in pyproject.toml." }
  | some data =>
      let classifiers := ((Toml.table data).get "project" (.table [])).get
        "classifiers" (.arr [])
      let missing := (classifierPrefixes.filter fun q =>
        !classifiers.anyStartsWith q.2).map fun q => q.1
      if !missing.isEmpty then
        .ok { name := "pyproject.classifiers", category := "pyproject",
              passed := false, weight := 1,
              message := "Missing " ++ toString missing.length ++
                " required classifier(s)",
              details := ["Missing: " ++ String.intercalate ", " missing],
              fix := "Add Development Status, Python version, and Typing :: Typed classifiers." }
      else
        .ok { name := "pyproject.classifiers", category := "pyproject",
              passed := true, weight := 1,
              message := "Required classifiers present", details := [],
              fix := "" }

/-- The source's `required` rule set `{"E", "F", "I", "UP", "B"}`, kept in
sorted order since it is only consumed through `sorted(...)`, `len` and
emptiness. -/
def ruffRequiredRules : List String := ["B", "E", "F", "I", "UP"]

/-- Check 37: essential ruff rule codes activated. -/
def check_pyproject_ruff_rules (fs : FS) : Except ReadErr CheckResult :=
  match _load_toml fs with
  | none =>
      .ok { name := "pyproject.ruff_rules", category := "pyproject",
            passed := false, weight := 2,
            message := "pyproject.toml not found or unparsable",
            details := [],
            fix := "Add [tool.ruff.lint] select with E, F, I, UP, B." }
  | some data =>
      let ruff_lint := (((Toml.table data).get "tool" (.table [])).get "ruff"
        (.table [])).get "lint" (.table [])
      let all_rules := (ruff_lint.get "select" (.arr [])).strElems ++
        (ruff_lint.get "extend-select" (.arr [])).strElems
      let missing :=
        if all_rules.contains "ALL" then []
        else ruffRequiredRules.filter fun k => !all_rules.contains k
      if !missing.isEmpty then
        .ok { name := "pyproject.ruff_rules", category := "pyproject",
              passed := false, weight := 2,
              message := "Missing " ++ toString missing.length ++
                " essential ruff rule(s)",
              details := ["Missing: " ++ String.intercalate ", " missing],
              fix := "Add " ++ String.intercalate ", " missing ++
                " to [tool.ruff.lint] select." }
      else
        .ok { name := "pyproject.ruff_rules", category := "pyproject",
              passed := true, weight := 2,
              message := "Essential ruff rules activated", details := [],
              fix := "" }

/-- The dev deps required by check 29. -/
def devDepsRequired : List String := ["pytest", "ruff", "mypy", "pre-commit"]

/-- Check 29: dev dependency group. -/
def check_dev_deps (fs : FS) : Except ReadErr CheckResult :=
  match _load_toml fs with
  | none =>
      .ok { name := "deps.dev_group", category := "deps", passed := false,
            weight := 3,
            message := "pyproject.toml not found or unparsable",
            details := [],
            fix := "Create pyproject.toml with [dependency-groups] dev group." }
  | some data =>
      let dev := ((Toml.table data).get "dependency-groups" (.table [])).get
        "dev" (.arr [])
      let dev_str := dev.joinStrs.toLower
      let missing := devDepsRequired.filter fun d => !strContains dev_str d
      if !missing.isEmpty then
        .ok { name := "deps.dev_group", category := "deps", passed := false,
              weight := 3,
              message := "Dev group missing " ++ toString missing.length ++
                " dep(s)",
              details := ["Missing: " ++ String.intercalate ", " missing],
              fix := "Add " ++ String.intercalate ", " missing ++
                " to [dependency-groups] dev." }
      else
        .ok { name := "deps.dev_group", category := "deps", passed := true,
              weight := 3, message := "Dev deps complete", details := [],
              fix := "" }

/-- The docs deps required by check 30. -/
def docsDepsRequired : List String :=
  ["mkdocs-material", "mkdocstrings", "mkdocs-gen-files",
   "mkdocs-literate-nav"]

/-- Check 30: docs dependency group. -/
def check_docs_deps (fs : FS) : Except ReadErr CheckResult :=
  match _load_toml fs with
  | none =>
      .ok { name := "deps.docs_group", category := "deps", passed := false,
            weight := 2,
            message := "pyproject.toml not found or unparsable",
            details := [],
            fix := "Create pyproject.toml with [dependency-groups] docs group." }
  | some data =>
      let docs := ((Toml.table data).get "dependency-groups" (.table [])).get
        "docs" (.arr [])
      let docs_str := docs.joinStrs.toLower
      let missing := docsDepsRequired.filter fun d => !strContains docs_str d
      if !missing.isEmpty then
        .ok { name := "deps.docs_group", category := "deps", passed := false,
              weight := 2,
              message := "Docs group missing " ++ toString missing.length ++
                " dep(s)",
              details := ["Missing: " ++ String.intercalate ", " missing],
              fix := "Add " ++ String.intercalate ", " missing ++
                " to [dependency-groups] docs." }
      else
        .ok { name := "deps.docs_group", category := "deps", passed := true,
              weight := 2, message := "Docs deps complete", details := [],
              fix := "" }

/-- Check 31: `[tool.git-cliff]` section (the predicate opens and parses
the file itself, with its own `try`/`except`). -/
def check_gitcliff_config (fs : FS) : Except ReadErr CheckResult :=
  if !fs.pyproject.exists? then
    .ok { name := "changelog.gitcliff", category := "changelog",
          passed := false, weight := 3, message := "pyproject.toml not found",
          details := [],
          fix := "Create pyproject.toml with [tool.git-cliff] section." }
  else
    match _load_toml fs with
    | none =>
        .ok { name := "changelog.gitcliff", category := "changelog",
              passed := false, weight := 3,
              message := "pyproject.toml unparsable", details := [],
              fix := "Fix TOML syntax and add [tool.git-cliff] section." }
    | some data =>
        if !((Toml.table data).get "tool" (.table [])).containsStr
            "git-cliff" then
          .ok { name := "changelog.gitcliff", category := "changelog",
                passed := false, weight := 3,
                message := "No [tool.git-cliff] config found",
                details := ["git-cliff auto-generates CHANGELOG from conventional commits"],
                fix := "Add [tool.git-cliff.changelog] and [tool.git-cliff.git] to pyproject.toml." }
        else
          .ok { name := "changelog.gitcliff", category := "changelog",
                passed := true, weight := 3, message := "git-cliff configured",
                details := [], fix := "" }

/-- Check 32 (changelog): no manual CHANGELOG.md. -/
def check_no_manual_changelog (fs : FS) : Except ReadErr CheckResult :=
  if fs.changelogMd then
    .ok { name := "changelog.no_manual", category := "changelog",
          passed := false, weight := 2,
          message := "Manual CHANGELOG.md found",
          details := ["git-cliff should auto-generate the changelog"],
          fix := "Delete CHANGELOG.md - git-cliff generates it from conventional commits." }
  else
    .ok { name := "changelog.no_manual", category := "changelog",
          passed := true, weight := 2, message := "No manual CHANGELOG.md",
          details := [], fix := "" }

/-! ## Registry and engine — `core/checker.py`. -/

/-- The `ALL_CHECKS` registry: category → ordered list of predicates, in
the source's dict order. -/
def ALL_CHECKS : List (String × List (FS → Except ReadErr CheckResult)) :=
  [("pyproject",
    [check_pyproject_exists, check_pyproject_urls,
     check_pyproject_dynamic_version, check_pyproject_mypy,
     check_pyproject_ruff, check_pyproject_pytest, check_pyproject_coverage,
     check_pyproject_classifiers, check_pyproject_ruff_rules]),
   ("ci",
    [check_ci_workflow_exists, check_ci_lint_job, check_ci_test_job,
     check_ci_security_job, check_ci_coverage_upload,
     check_trusted_publishing, check_dependabot]),
   ("tooling",
    [check_precommit_exists, check_precommit_ruff, check_precommit_mypy,
     check_precommit_conventional, check_precommit_basic,
     check_precommit_installed, check_makefile]),
   ("docs",
    [check_mkdocs_exists, check_diataxis_nav, check_docs_plugins,
     check_docs_gen_ref_pages, check_readme]),
   ("structure",
    [check_src_layout, check_py_typed, check_tests_dir, check_contributing,
     check_license_file, check_uv_lock, check_python_version]),
   ("deps", [check_dev_deps, check_docs_deps]),
   ("changelog", [check_gitcliff_config, check_no_manual_changelog])]

/-- `VALID_CATEGORIES` (the registry's key set, as a list). -/
def VALID_CATEGORIES : List String := ALL_CHECKS.map fun p => p.1

/-- The flat, registry-ordered list of all 39 predicates. -/
def allChecksFlat : List (FS → Except ReadErr CheckResult) :=
  (ALL_CHECKS.map fun p => p.2).flatten

/-- An error surfacing from `CheckEngine.run`: the `ValueError` usage error
for an unknown category, or an exception escaping a predicate. -/
inductive EngineErr where
  | usage (msg : String)
  | pred (e : ReadErr)
deriving DecidableEq, Repr

/-- The `ValueError` message for an unknown category
(`f"Unknown category '{category}'. Valid: {', '.join(sorted(...))}"`). -/
def unknown_category_msg (c : String) : String :=
  "Unknown category \x27" ++ c ++ "\x27. Valid: " ++
    String.intercalate ", " (sortStrings VALID_CATEGORIES)

/-- The sequential predicate loop of `CheckEngine.run`: first escaping
exception aborts the run. -/
def runChecksList (fs : FS) :
    List (FS → Except ReadErr CheckResult) →
      Except ReadErr (List CheckResult)
  | [] => .ok []
  | c :: cs =>
      match c fs with
      | .error e => .error e
      | .ok r =>
          match runChecksList fs cs with
          | .error e => .error e
          | .ok rs => .ok (r :: rs)

/-- Run the selected categories and fold into a `ProjectResult`. -/
def fold_results (fs : FS) (project_path : String)
    (cats : List (String × List (FS → Except ReadErr CheckResult))) :
    Except EngineErr ProjectResult :=
  match runChecksList fs (cats.map fun p => p.2).flatten with
  | .error e => .error (.pred e)
  | .ok rs => .ok (ProjectResult.from_checks project_path rs)

/-- `CheckEngine.run`: `if self.category:` is Python truthiness, so an
empty-string category runs everything; an unknown non-empty category
raises the usage `ValueError`. -/
def CheckEngine_run (fs : FS) (project_path : String)
    (category : Option String) : Except EngineErr ProjectResult :=
  match category with
  | none => fold_results fs project_path ALL_CHECKS
  | some c =>
      if c = "" then fold_results fs project_path ALL_CHECKS
      else
        match ALL_CHECKS.find? (fun q => q.1 == c) with
        | none => .error (.usage (unknown_category_msg c))
        | some entry => fold_results fs project_path [entry]

/-! ## Formatters — `format_agent` from `core/checker.py`. -/

/-- JSON-like values built by the formatters. -/
inductive JVal where
  | jint (n : Int)
  | jstr (s : String)
  | jarr (xs : List JVal)
  | jobj (kvs : List (String × JVal))

/-- Keys of a JSON object value. -/
def JVal.objKeys : JVal → List String
  | .jobj kvs => kvs.map fun q => q.1
  | _ => []

/-- One entry of `format_agent`'s `failed` list. -/
def failedEntry (f : CheckResult) : JVal :=
  .jobj [("name", .jstr f.name), ("message", .jstr f.message),
         ("details", .jarr (f.details.map JVal.jstr)),
         ("fix", .jstr f.fix)]

/-- `format_agent`: `{score, grade, passed_count, failed}` with only the
failures carrying detail. -/
def format_agent (r : ProjectResult) : List (String × JVal) :=
  [("score", .jint r.score),
   ("grade", .jstr r.grade.val),
   ("passed_count", .jint (r.checks.countP fun c => c.passed)),
   ("failed", .jarr (r.failures.map failedEntry))]

/-! ## Pydantic construction model.

`CheckResult` is declared with no `model_config`, so pydantic's default
`extra="ignore"` applies: unknown keyword arguments are silently dropped
(unlike `ScaffoldResult`/`ReserveResult`/`ProjectConfig`, which set
`extra="forbid"`).  `ProjectResult` likewise has no `model_config` and no
cross-field validator.  Construction is modelled as validation of a
keyword-argument list: every declared field must be present with a value of
its declared type, and any other keyword is ignored. -/

/-- A keyword-argument value for `CheckResult(...)`. -/
inductive FVal where
  | fint (n : Int)
  | fstr (s : String)
  | fbool (b : Bool)
  | flist (xs : List FVal)

/-- Coerce a keyword value to `list[str]`. -/
def FVal.asStrList : FVal → Option (List String)
  | .flist xs => xs.mapM fun v =>
      match v with | .fstr s => some s | _ => none
  | _ => none

/-- `CheckResult(**kwargs)` under the model's actual (default)
configuration: required typed fields, extras ignored. -/
def validateCheckResult (kvs : List (String × FVal)) : Option CheckResult :=
  match kvs.lookup "name", kvs.lookup "category", kvs.lookup "passed",
      kvs.lookup "weight", kvs.lookup "message", kvs.lookup "details",
      kvs.lookup "fix" with
  | some (.fstr n), some (.fstr c), some (.fbool p), some (.fint w),
      some (.fstr m), some d, some (.fstr f) =>
      match d.asStrList with
      | some ds =>
          some { name := n, category := c, passed := p, weight := w,
                 message := m, details := ds, fix := f }
      | none => none
  | _, _, _, _, _, _, _ => none

/-- A keyword-argument value for `ProjectResult(...)` (field values may be
already-constructed models, which pydantic accepts as-is). -/
inductive PVal where
  | ppath (s : String)
  | pint (n : Int)
  | pgrade (g : Grade)
  | pchecks (cs : List CheckResult)
  | pcats (m : List (String × CategoryScore))

/-- `ProjectResult(**kwargs)` under the model's actual (default)
configuration: required typed fields, extras ignored, and no cross-field
validation relating `score`/`grade` to `checks`. -/
def validateProjectResult (kvs : List (String × PVal)) :
    Option ProjectResult :=
  match kvs.lookup "project_path", kvs.lookup "checks", kvs.lookup "score",
      kvs.lookup "grade", kvs.lookup "categories",
      kvs.lookup "failures" with
  | some (.ppath p), some (.pchecks cs), some (.pint s), some (.pgrade g),
      some (.pcats m), some (.pchecks fl) =>
      some { project_path := p, checks := cs, score := s, grade := g,
             categories := m, failures := fl }
  | _, _, _, _, _, _ => none

/-! ## Concrete states and values used by the theorems. -/

/-- Total weight of the full registry, read off the results of a run
against an empty project (every predicate succeeds there, and each
predicate's weight is the same constant in all of its branches). -/
def registryWeightSum : Int :=
  (allChecksFlat.map fun c =>
    match c emptyFS with
    | .ok r => r.weight
    | .error _ => 0).sum

/-- An otherwise-empty project whose `.pre-commit-config.yaml` exists but
cannot be read (permission denied). -/
def fsUnreadablePrecommit : FS :=
  { emptyFS with precommitConfig := Entry.file ⟨Except.error ReadErr.os, none⟩ }

/-- An otherwise-empty project whose `README.md` exists but is not
UTF-8-decodable. -/
def fsUnreadableReadme : FS :=
  { emptyFS with readme := Entry.file ⟨Except.error ReadErr.decode, none⟩ }

/-- An otherwise-empty project whose `pyproject.toml` exists but cannot be
read (so `tomllib` cannot parse it either). -/
def fsUnreadablePyproject : FS :=
  { emptyFS with pyproject := Entry.file ⟨Except.error ReadErr.os, none⟩ }

/-- An otherwise-empty project whose `Makefile` exists but cannot be
read (permission denied). -/
def fsUnreadableMakefile : FS :=
  { emptyFS with makefile := Entry.file ⟨Except.error ReadErr.os, none⟩ }

/-- The `ProjectResult` of a full run against the empty project. -/
def emptyRunOk : ProjectResult :=
  match CheckEngine_run emptyFS "/p" none with
  | .ok pr => pr
  | .error _ => ProjectResult.from_checks "/p" []

/-- A `ProjectResult` whose `score`/`grade` disagree with its `checks`. -/
def inconsistentPR : ProjectResult :=
  { project_path := "/p", checks := [], score := 55, grade := Grade.A,
    categories := [], failures := [] }

/-! ## Theorems. -/
/-- C2: compute_grade maps a score to a letter grade using inclusive lower
bounds A ≥ 90, B ≥ 75, C ≥ 60, D ≥ 40, F otherwise, with the nine stated
boundary values. -/
theorem compute_grade_spec :
    (∀ s : Int, compute_grade s = Grade.A ↔ 90 ≤ s) ∧
    (∀ s : Int, compute_grade s = Grade.B ↔ 75 ≤ s ∧ s < 90) ∧
    (∀ s : Int, compute_grade s = Grade.C ↔ 60 ≤ s ∧ s < 75) ∧
    (∀ s : Int, compute_grade s = Grade.D ↔ 40 ≤ s ∧ s < 60) ∧
    (∀ s : Int, compute_grade s = Grade.F ↔ s < 40) ∧
    compute_grade 90 = Grade.A ∧ compute_grade 89 = Grade.B ∧
    compute_grade 75 = Grade.B ∧ compute_grade 74 = Grade.C ∧
    compute_grade 60 = Grade.C ∧ compute_grade 59 = Grade.D ∧
    compute_grade 40 = Grade.D ∧ compute_grade 39 = Grade.F ∧
    compute_grade 0 = Grade.F := by
  refine ⟨?_, ?_, ?_, ?_, ?_, by decide, by decide, by decide, by decide,
    by decide, by decide, by decide, by decide, by decide⟩ <;>
    intro s <;> unfold compute_grade <;> split_ifs <;>
    simp_all <;> omega

/-- C1: `ProjectResult.from_checks` computes `score` as the rounding of
`100 * total_earned / total_weight` when the total weight is positive and `0`
when it is zero, and folding the empty check list yields score 0, grade F,
empty categories and empty failures. -/
theorem from_checks_score_spec (p : String) (cs : List CheckResult) :
    (0 < totalWeight cs →
      (ProjectResult.from_checks p cs).score =
        pyRound (100 * (totalEarned cs : ℚ) / (totalWeight cs : ℚ))) ∧
    (totalWeight cs = 0 → (ProjectResult.from_checks p cs).score = 0) ∧
    ProjectResult.from_checks p [] =
      { project_path := p, checks := [], score := 0, grade := Grade.F,
        categories := [], failures := [] } := by
  refine ⟨?_, ?_, rfl⟩ <;> intro h <;>
    simp only [ProjectResult.from_checks, h, if_pos, if_neg, lt_irrefl,
      if_false]
  congr 1
  ring

/-- Witness for `from_checks_score_spec` at a one-check list and at `[]`. -/
theorem from_checks_score_spec_witness :
    ((ProjectResult.from_checks "/w"
        [{ name := "a", category := "c", passed := true, weight := 1,
           message := "", details := [], fix := "" }]).score =
      pyRound (100 * ((totalEarned
        [{ name := "a", category := "c", passed := true, weight := 1,
           message := "", details := [], fix := "" }] : Int) : ℚ) /
        ((totalWeight
        [{ name := "a", category := "c", passed := true, weight := 1,
           message := "", details := [], fix := "" }] : Int) : ℚ))) ∧
    (ProjectResult.from_checks "/w" []).score = 0 :=
  ⟨(from_checks_score_spec "/w" _).1 (by decide),
   (from_checks_score_spec "/w" []).2.1 (by decide)⟩

/-- Helper: a string starting with a non-empty literal is non-empty. -/
theorem append3_ne_empty (a b c : String) (h : 0 < a.length) :
    a ++ b ++ c ≠ "" := by
  intro he
  have hl := congrArg String.length he
  rw [String.length_append, String.length_append] at hl
  simp at hl
  omega

/-- Every failing result of `check_pyproject_exists` carries a non-empty fix. -/
theorem fixOk_pyproject_exists : ∀ (fs : FS) (r : CheckResult),
    check_pyproject_exists fs = .ok r → r.passed = false → r.fix ≠ "" := by
  intro fs r h hp
  unfold check_pyproject_exists at h
  repeat any_goals first | split at h | dsimp only at h
  all_goals
    first
      | exact Except.noConfusion h
      | (injection h with h; subst h; dsimp only at hp ⊢;
         first
           | exact absurd hp (by decide)
           | decide
           | exact append3_ne_empty _ _ _ (by decide))

/-- Every failing result of `check_pyproject_urls` carries a non-empty fix. -/
theorem fixOk_pyproject_urls : ∀ (fs : FS) (r : CheckResult),
    check_pyproject_urls fs = .ok r → r.passed = false → r.fix ≠ "" := by
  intro fs r h hp
  unfold check_pyproject_urls at h
  repeat any_goals first | split at h | dsimp only at h
  all_goals
    first
      | exact Except.noConfusion h
      | (injection h with h; subst h; dsimp only at hp ⊢;
         first
           | exact absurd hp (by decide)
           | decide
           | exact append3_ne_empty _ _ _ (by decide))

/-- Every failing result of `check_pyproject_dynamic_version` carries a non-empty fix. -/
theorem fixOk_pyproject_dynamic_version : ∀ (fs : FS) (r : CheckResult),
    check_pyproject_dynamic_version fs = .ok r → r.passed = false → r.fix ≠ "" := by
  intro fs r h hp
  unfold check_pyproject_dynamic_version at h
  repeat any_goals first | split at h | dsimp only at h
  all_goals
    first
      | exact Except.noConfusion h
      | (injection h with h; subst h; dsimp only at hp ⊢;
         first
           | exact absurd hp (by decide)
           | decide
           | exact append3_ne_empty _ _ _ (by decide))

/-- Every failing result of `check_pyproject_mypy` carries a non-empty fix. -/
theorem fixOk_pyproject_mypy : ∀ (fs : FS) (r : CheckResult),
    check_pyproject_mypy fs = .ok r → r.passed = false → r.fix ≠ "" := by
  intro fs r h hp
  unfold check_pyproject_mypy at h
  repeat any_goals first | split at h | dsimp only at h
  all_goals
    first
      | exact Except.noConfusion h
      | (injection h with h; subst h; dsimp only at hp ⊢;
         first
           | exact absurd hp (by decide)
           | decide
           | exact append3_ne_empty _ _ _ (by decide))

/-- Every failing result of `check_pyproject_ruff` carries a non-empty fix. -/
theorem fixOk_pyproject_ruff : ∀ (fs : FS) (r : CheckResult),
    check_pyproject_ruff fs = .ok r → r.passed = false → r.fix ≠ "" := by
  intro fs r h hp
  unfold check_pyproject_ruff at h
  repeat any_goals first | split at h | dsimp only at h
  all_goals
    first
      | exact Except.noConfusion h
      | (injection h with h; subst h; dsimp only at hp ⊢;
         first
           | exact absurd hp (by decide)
           | decide
           | exact append3_ne_empty _ _ _ (by decide))

/-- Every failing result of `check_pyproject_pytest` carries a non-empty fix. -/
theorem fixOk_pyproject_pytest : ∀ (fs : FS) (r : CheckResult),
    check_pyproject_pytest fs = .ok r → r.passed = false → r.fix ≠ "" := by
  intro fs r h hp
  unfold check_pyproject_pytest at h
  repeat any_goals first | split at h | dsimp only at h
  all_goals
    first
      | exact Except.noConfusion h
      | (injection h with h; subst h; dsimp only at hp ⊢;
         first
           | exact absurd hp (by decide)
           | decide
           | exact append3_ne_empty _ _ _ (by decide))

/-- Every failing result of `check_pyproject_coverage` carries a non-empty fix. -/
theorem fixOk_pyproject_coverage : ∀ (fs : FS) (r : CheckResult),
    check_pyproject_coverage fs = .ok r → r.passed = false → r.fix ≠ "" := by
  intro fs r h hp
  unfold check_pyproject_coverage at h
  repeat any_goals first | split at h | dsimp only at h
  all_goals
    first
      | exact Except.noConfusion h
      | (injection h with h; subst h; dsimp only at hp ⊢;
         first
           | exact absurd hp (by decide)
           | decide
           | exact append3_ne_empty _ _ _ (by decide))

/-- Every failing result of `check_pyproject_classifiers` carries a non-empty fix. -/
theorem fixOk_pyproject_classifiers : ∀ (fs : FS) (r : CheckResult),
    check_pyproject_classifiers fs = .ok r → r.passed = false → r.fix ≠ "" := by
  intro fs r h hp
  unfold check_pyproject_classifiers at h
  repeat any_goals first | split at h | dsimp only at h
  all_goals
    first
      | exact Except.noConfusion h
      | (injection h with h; subst h; dsimp only at hp ⊢;
         first
           | exact absurd hp (by decide)
           | decide
           | exact append3_ne_empty _ _ _ (by decide))

/-- Every failing result of `check_pyproject_ruff_rules` carries a non-empty fix. -/
theorem fixOk_pyproject_ruff_rules : ∀ (fs : FS) (r : CheckResult),
    check_pyproject_ruff_rules fs = .ok r → r.passed = false → r.fix ≠ "" := by
  intro fs r h hp
  unfold check_pyproject_ruff_rules at h
  repeat any_goals first | split at h | dsimp only at h
  all_goals
    first
      | exact Except.noConfusion h
      | (injection h with h; subst h; dsimp only at hp ⊢;
         first
           | exact absurd hp (by decide)
           | decide
           | exact append3_ne_empty _ _ _ (by decide))

/-- Every failing result of `check_ci_workflow_exists` carries a non-empty fix. -/
theorem fixOk_ci_workflow_exists : ∀ (fs : FS) (r : CheckResult),
    check_ci_workflow_exists fs = .ok r → r.passed = false → r.fix ≠ "" := by
  intro fs r h hp
  unfold check_ci_workflow_exists at h
  repeat any_goals first | split at h | dsimp only at h
  all_goals
    first
      | exact Except.noConfusion h
      | (injection h with h; subst h; dsimp only at hp ⊢;
         first
           | exact absurd hp (by decide)
           | decide
           | exact append3_ne_empty _ _ _ (by decide))

/-- Every failing result of `check_ci_lint_job` carries a non-empty fix. -/
theorem fixOk_ci_lint_job : ∀ (fs : FS) (r : CheckResult),
    check_ci_lint_job fs = .ok r → r.passed = false → r.fix ≠ "" := by
  intro fs r h hp
  unfold check_ci_lint_job at h
  repeat any_goals first | split at h | dsimp only at h
  all_goals
    first
      | exact Except.noConfusion h
      | (injection h with h; subst h; dsimp only at hp ⊢;
         first
           | exact absurd hp (by decide)
           | decide
           | exact append3_ne_empty _ _ _ (by decide))

/-- Every failing result of `check_ci_test_job` carries a non-empty fix. -/
theorem fixOk_ci_test_job : ∀ (fs : FS) (r : CheckResult),
    check_ci_test_job fs = .ok r → r.passed = false → r.fix ≠ "" := by
  intro fs r h hp
  unfold check_ci_test_job at h
  repeat any_goals first | split at h | dsimp only at h
  all_goals
    first
      | exact Except.noConfusion h
      | (injection h with h; subst h; dsimp only at hp ⊢;
         first
           | exact absurd hp (by decide)
           | decide
           | exact append3_ne_empty _ _ _ (by decide))

/-- Every failing result of `check_ci_security_job` carries a non-empty fix. -/
theorem fixOk_ci_security_job : ∀ (fs : FS) (r : CheckResult),
    check_ci_security_job fs = .ok r → r.passed = false → r.fix ≠ "" := by
  intro fs r h hp
  unfold check_ci_security_job at h
  repeat any_goals first | split at h | dsimp only at h
  all_goals
    first
      | exact Except.noConfusion h
      | (injection h with h; subst h; dsimp only at hp ⊢;
         first
           | exact absurd hp (by decide)
           | decide
           | exact append3_ne_empty _ _ _ (by decide))

/-- Every failing result of `check_ci_coverage_upload` carries a non-empty fix. -/
theorem fixOk_ci_coverage_upload : ∀ (fs : FS) (r : CheckResult),
    check_ci_coverage_upload fs = .ok r → r.passed = false → r.fix ≠ "" := by
  intro fs r h hp
  unfold check_ci_coverage_upload at h
  repeat any_goals first | split at h | dsimp only at h
  all_goals
    first
      | exact Except.noConfusion h
      | (injection h with h; subst h; dsimp only at hp ⊢;
         first
           | exact absurd hp (by decide)
           | decide
           | exact append3_ne_empty _ _ _ (by decide))

/-- Every failing result of `check_trusted_publishing` carries a non-empty fix. -/
theorem fixOk_trusted_publishing : ∀ (fs : FS) (r : CheckResult),
    check_trusted_publishing fs = .ok r → r.passed = false → r.fix ≠ "" := by
  intro fs r h hp
  unfold check_trusted_publishing at h
  repeat any_goals first | split at h | dsimp only at h
  all_goals
    first
      | exact Except.noConfusion h
      | (injection h with h; subst h; dsimp only at hp ⊢;
         first
           | exact absurd hp (by decide)
           | decide
           | exact append3_ne_empty _ _ _ (by decide))

/-- Every failing result of `check_dependabot` carries a non-empty fix. -/
theorem fixOk_dependabot : ∀ (fs : FS) (r : CheckResult),
    check_dependabot fs = .ok r → r.passed = false → r.fix ≠ "" := by
  intro fs r h hp
  unfold check_dependabot at h
  repeat any_goals first | split at h | dsimp only at h
  all_goals
    first
      | exact Except.noConfusion h
      | (injection h with h; subst h; dsimp only at hp ⊢;
         first
           | exact absurd hp (by decide)
           | decide
           | exact append3_ne_empty _ _ _ (by decide))

/-- Every failing result of `check_precommit_exists` carries a non-empty fix. -/
theorem fixOk_precommit_exists : ∀ (fs : FS) (r : CheckResult),
    check_precommit_exists fs = .ok r → r.passed = false → r.fix ≠ "" := by
  intro fs r h hp
  unfold check_precommit_exists at h
  repeat any_goals first | split at h | dsimp only at h
  all_goals
    first
      | exact Except.noConfusion h
      | (injection h with h; subst h; dsimp only at hp ⊢;
         first
           | exact absurd hp (by decide)
           | decide
           | exact append3_ne_empty _ _ _ (by decide))

/-- Every failing result of `check_precommit_ruff` carries a non-empty fix. -/
theorem fixOk_precommit_ruff : ∀ (fs : FS) (r : CheckResult),
    check_precommit_ruff fs = .ok r → r.passed = false → r.fix ≠ "" := by
  intro fs r h hp
  unfold check_precommit_ruff at h
  repeat any_goals first | split at h | dsimp only at h
  all_goals
    first
      | exact Except.noConfusion h
      | (injection h with h; subst h; dsimp only at hp ⊢;
         first
           | exact absurd hp (by decide)
           | decide
           | exact append3_ne_empty _ _ _ (by decide))

/-- Every failing result of `check_precommit_mypy` carries a non-empty fix. -/
theorem fixOk_precommit_mypy : ∀ (fs : FS) (r : CheckResult),
    check_precommit_mypy fs = .ok r → r.passed = false → r.fix ≠ "" := by
  intro fs r h hp
  unfold check_precommit_mypy at h
  repeat any_goals first | split at h | dsimp only at h
  all_goals
    first
      | exact Except.noConfusion h
      | (injection h with h; subst h; dsimp only at hp ⊢;
         first
           | exact absurd hp (by decide)
           | decide
           | exact append3_ne_empty _ _ _ (by decide))

/-- Every failing result of `check_precommit_conventional` carries a non-empty fix. -/
theorem fixOk_precommit_conventional : ∀ (fs : FS) (r : CheckResult),
    check_precommit_conventional fs = .ok r → r.passed = false → r.fix ≠ "" := by
  intro fs r h hp
  unfold check_precommit_conventional at h
  repeat any_goals first | split at h | dsimp only at h
  all_goals
    first
      | exact Except.noConfusion h
      | (injection h with h; subst h; dsimp only at hp ⊢;
         first
           | exact absurd hp (by decide)
           | decide
           | exact append3_ne_empty _ _ _ (by decide))

/-- Every failing result of `check_precommit_basic` carries a non-empty fix. -/
theorem fixOk_precommit_basic : ∀ (fs : FS) (r : CheckResult),
    check_precommit_basic fs = .ok r → r.passed = false → r.fix ≠ "" := by
  intro fs r h hp
  unfold check_precommit_basic at h
  repeat any_goals first | split at h | dsimp only at h
  all_goals
    first
      | exact Except.noConfusion h
      | (injection h with h; subst h; dsimp only at hp ⊢;
         first
           | exact absurd hp (by decide)
           | decide
           | exact append3_ne_empty _ _ _ (by decide))

/-- Every failing result of `check_precommit_installed` carries a non-empty fix. -/
theorem fixOk_precommit_installed : ∀ (fs : FS) (r : CheckResult),
    check_precommit_installed fs = .ok r → r.passed = false → r.fix ≠ "" := by
  intro fs r h hp
  unfold check_precommit_installed at h
  repeat any_goals first | split at h | dsimp only at h
  all_goals
    first
      | exact Except.noConfusion h
      | (injection h with h; subst h; dsimp only at hp ⊢;
         first
           | exact absurd hp (by decide)
           | decide
           | exact append3_ne_empty _ _ _ (by decide))

/-- Every failing result of `check_makefile` carries a non-empty fix. -/
theorem fixOk_makefile : ∀ (fs : FS) (r : CheckResult),
    check_makefile fs = .ok r → r.passed = false → r.fix ≠ "" := by
  intro fs r h hp
  unfold check_makefile at h
  repeat any_goals first | split at h | dsimp only at h
  all_goals
    first
      | exact Except.noConfusion h
      | (injection h with h; subst h; dsimp only at hp ⊢;
         first
           | exact absurd hp (by decide)
           | decide
           | exact append3_ne_empty _ _ _ (by decide))

/-- Every failing result of `check_mkdocs_exists` carries a non-empty fix. -/
theorem fixOk_mkdocs_exists : ∀ (fs : FS) (r : CheckResult),
    check_mkdocs_exists fs = .ok r → r.passed = false → r.fix ≠ "" := by
  intro fs r h hp
  unfold check_mkdocs_exists at h
  repeat any_goals first | split at h | dsimp only at h
  all_goals
    first
      | exact Except.noConfusion h
      | (injection h with h; subst h; dsimp only at hp ⊢;
         first
           | exact absurd hp (by decide)
           | decide
           | exact append3_ne_empty _ _ _ (by decide))

/-- Every failing result of `check_diataxis_nav` carries a non-empty fix. -/
theorem fixOk_diataxis_nav : ∀ (fs : FS) (r : CheckResult),
    check_diataxis_nav fs = .ok r → r.passed = false → r.fix ≠ "" := by
  intro fs r h hp
  unfold check_diataxis_nav at h
  repeat any_goals first | split at h | dsimp only at h
  all_goals
    first
      | exact Except.noConfusion h
      | (injection h with h; subst h; dsimp only at hp ⊢;
         first
           | exact absurd hp (by decide)
           | decide
           | exact append3_ne_empty _ _ _ (by decide))

/-- Every failing result of `check_docs_plugins` carries a non-empty fix. -/
theorem fixOk_docs_plugins : ∀ (fs : FS) (r : CheckResult),
    check_docs_plugins fs = .ok r → r.passed = false → r.fix ≠ "" := by
  intro fs r h hp
  unfold check_docs_plugins at h
  repeat any_goals first | split at h | dsimp only at h
  all_goals
    first
      | exact Except.noConfusion h
      | (injection h with h; subst h; dsimp only at hp ⊢;
         first
           | exact absurd hp (by decide)
           | decide
           | exact append3_ne_empty _ _ _ (by decide))

/-- Every failing result of `check_docs_gen_ref_pages` carries a non-empty fix. -/
theorem fixOk_docs_gen_ref_pages : ∀ (fs : FS) (r : CheckResult),
    check_docs_gen_ref_pages fs = .ok r → r.passed = false → r.fix ≠ "" := by
  intro fs r h hp
  unfold check_docs_gen_ref_pages at h
  repeat any_goals first | split at h | dsimp only at h
  all_goals
    first
      | exact Except.noConfusion h
      | (injection h with h; subst h; dsimp only at hp ⊢;
         first
           | exact absurd hp (by decide)
           | decide
           | exact append3_ne_empty _ _ _ (by decide))

/-- Every failing result of `check_readme` carries a non-empty fix. -/
theorem fixOk_readme : ∀ (fs : FS) (r : CheckResult),
    check_readme fs = .ok r → r.passed = false → r.fix ≠ "" := by
  intro fs r h hp
  unfold check_readme at h
  repeat any_goals first | split at h | dsimp only at h
  all_goals
    first
      | exact Except.noConfusion h
      | (injection h with h; subst h; dsimp only at hp ⊢;
         first
           | exact absurd hp (by decide)
           | decide
           | exact append3_ne_empty _ _ _ (by decide))

/-- Every failing result of `check_src_layout` carries a non-empty fix. -/
theorem fixOk_src_layout : ∀ (fs : FS) (r : CheckResult),
    check_src_layout fs = .ok r → r.passed = false → r.fix ≠ "" := by
  intro fs r h hp
  unfold check_src_layout at h
  repeat any_goals first | split at h | dsimp only at h
  all_goals
    first
      | exact Except.noConfusion h
      | (injection h with h; subst h; dsimp only at hp ⊢;
         first
           | exact absurd hp (by decide)
           | decide
           | exact append3_ne_empty _ _ _ (by decide))

/-- Every failing result of `check_py_typed` carries a non-empty fix. -/
theorem fixOk_py_typed : ∀ (fs : FS) (r : CheckResult),
    check_py_typed fs = .ok r → r.passed = false → r.fix ≠ "" := by
  intro fs r h hp
  unfold check_py_typed at h
  repeat any_goals first | split at h | dsimp only at h
  all_goals
    first
      | exact Except.noConfusion h
      | (injection h with h; subst h; dsimp only at hp ⊢;
         first
           | exact absurd hp (by decide)
           | decide
           | exact append3_ne_empty _ _ _ (by decide))

/-- Every failing result of `check_tests_dir` carries a non-empty fix. -/
theorem fixOk_tests_dir : ∀ (fs : FS) (r : CheckResult),
    check_tests_dir fs = .ok r → r.passed = false → r.fix ≠ "" := by
  intro fs r h hp
  unfold check_tests_dir at h
  repeat any_goals first | split at h | dsimp only at h
  all_goals
    first
      | exact Except.noConfusion h
      | (injection h with h; subst h; dsimp only at hp ⊢;
         first
           | exact absurd hp (by decide)
           | decide
           | exact append3_ne_empty _ _ _ (by decide))

/-- Every failing result of `check_contributing` carries a non-empty fix. -/
theorem fixOk_contributing : ∀ (fs : FS) (r : CheckResult),
    check_contributing fs = .ok r → r.passed = false → r.fix ≠ "" := by
  intro fs r h hp
  unfold check_contributing at h
  repeat any_goals first | split at h | dsimp only at h
  all_goals
    first
      | exact Except.noConfusion h
      | (injection h with h; subst h; dsimp only at hp ⊢;
         first
           | exact absurd hp (by decide)
           | decide
           | exact append3_ne_empty _ _ _ (by decide))

/-- Every failing result of `check_license_file` carries a non-empty fix. -/
theorem fixOk_license_file : ∀ (fs : FS) (r : CheckResult),
    check_license_file fs = .ok r → r.passed = false → r.fix ≠ "" := by
  intro fs r h hp
  unfold check_license_file at h
  repeat any_goals first | split at h | dsimp only at h
  all_goals
    first
      | exact Except.noConfusion h
      | (injection h with h; subst h; dsimp only at hp ⊢;
         first
           | exact absurd hp (by decide)
           | decide
           | exact append3_ne_empty _ _ _ (by decide))

/-- Every failing result of `check_uv_lock` carries a non-empty fix. -/
theorem fixOk_uv_lock : ∀ (fs : FS) (r : CheckResult),
    check_uv_lock fs = .ok r → r.passed = false → r.fix ≠ "" := by
  intro fs r h hp
  unfold check_uv_lock at h
  repeat any_goals first | split at h | dsimp only at h
  all_goals
    first
      | exact Except.noConfusion h
      | (injection h with h; subst h; dsimp only at hp ⊢;
         first
           | exact absurd hp (by decide)
           | decide
           | exact append3_ne_empty _ _ _ (by decide))

/-- Every failing result of `check_python_version` carries a non-empty fix. -/
theorem fixOk_python_version : ∀ (fs : FS) (r : CheckResult),
    check_python_version fs = .ok r → r.passed = false → r.fix ≠ "" := by
  intro fs r h hp
  unfold check_python_version at h
  repeat any_goals first | split at h | dsimp only at h
  all_goals
    first
      | exact Except.noConfusion h
      | (injection h with h; subst h; dsimp only at hp ⊢;
         first
           | exact absurd hp (by decide)
           | decide
           | exact append3_ne_empty _ _ _ (by decide))

/-- Every failing result of `check_dev_deps` carries a non-empty fix. -/
theorem fixOk_dev_deps : ∀ (fs : FS) (r : CheckResult),
    check_dev_deps fs = .ok r → r.passed = false → r.fix ≠ "" := by
  intro fs r h hp
  unfold check_dev_deps at h
  repeat any_goals first | split at h | dsimp only at h
  all_goals
    first
      | exact Except.noConfusion h
      | (injection h with h; subst h; dsimp only at hp ⊢;
         first
           | exact absurd hp (by decide)
           | decide
           | exact append3_ne_empty _ _ _ (by decide))

/-- Every failing result of `check_docs_deps` carries a non-empty fix. -/
theorem fixOk_docs_deps : ∀ (fs : FS) (r : CheckResult),
    check_docs_deps fs = .ok r → r.passed = false → r.fix ≠ "" := by
  intro fs r h hp
  unfold check_docs_deps at h
  repeat any_goals first | split at h | dsimp only at h
  all_goals
    first
      | exact Except.noConfusion h
      | (injection h with h; subst h; dsimp only at hp ⊢;
         first
           | exact absurd hp (by decide)
           | decide
           | exact append3_ne_empty _ _ _ (by decide))

/-- Every failing result of `check_gitcliff_config` carries a non-empty fix. -/
theorem fixOk_gitcliff_config : ∀ (fs : FS) (r : CheckResult),
    check_gitcliff_config fs = .ok r → r.passed = false → r.fix ≠ "" := by
  intro fs r h hp
  unfold check_gitcliff_config at h
  repeat any_goals first | split at h | dsimp only at h
  all_goals
    first
      | exact Except.noConfusion h
      | (injection h with h; subst h; dsimp only at hp ⊢;
         first
           | exact absurd hp (by decide)
           | decide
           | exact append3_ne_empty _ _ _ (by decide))

/-- Every failing result of `check_no_manual_changelog` carries a non-empty fix. -/
theorem fixOk_no_manual_changelog : ∀ (fs : FS) (r : CheckResult),
    check_no_manual_changelog fs = .ok r → r.passed = false → r.fix ≠ "" := by
  intro fs r h hp
  unfold check_no_manual_changelog at h
  repeat any_goals first | split at h | dsimp only at h
  all_goals
    first
      | exact Except.noConfusion h
      | (injection h with h; subst h; dsimp only at hp ⊢;
         first
           | exact absurd hp (by decide)
           | decide
           | exact append3_ne_empty _ _ _ (by decide))

/-- C4: every predicate in the registry, on every project state on which it
returns a `CheckResult`, pairs `passed = False` with a non-empty `fix`. -/
theorem registry_failing_fix_nonempty :
    ∀ c ∈ allChecksFlat, ∀ (fs : FS) (r : CheckResult),
      c fs = Except.ok r → r.passed = false → r.fix ≠ "" := by
  intro c hc
  simp only [allChecksFlat, ALL_CHECKS, List.map, List.flatten,
    List.cons_append, List.nil_append, List.mem_cons, List.not_mem_nil,
    or_false] at hc
  rcases hc with rfl | rfl | rfl | rfl | rfl | rfl | rfl | rfl | rfl | rfl | rfl | rfl | rfl | rfl | rfl | rfl | rfl | rfl | rfl | rfl | rfl | rfl | rfl | rfl | rfl | rfl | rfl | rfl | rfl | rfl | rfl | rfl | rfl | rfl | rfl | rfl | rfl | rfl | rfl
  · exact fixOk_pyproject_exists
  · exact fixOk_pyproject_urls
  · exact fixOk_pyproject_dynamic_version
  · exact fixOk_pyproject_mypy
  · exact fixOk_pyproject_ruff
  · exact fixOk_pyproject_pytest
  · exact fixOk_pyproject_coverage
  · exact fixOk_pyproject_classifiers
  · exact fixOk_pyproject_ruff_rules
  · exact fixOk_ci_workflow_exists
  · exact fixOk_ci_lint_job
  · exact fixOk_ci_test_job
  · exact fixOk_ci_security_job
  · exact fixOk_ci_coverage_upload
  · exact fixOk_trusted_publishing
  · exact fixOk_dependabot
  · exact fixOk_precommit_exists
  · exact fixOk_precommit_ruff
  · exact fixOk_precommit_mypy
  · exact fixOk_precommit_conventional
  · exact fixOk_precommit_basic
  · exact fixOk_precommit_installed
  · exact fixOk_makefile
  · exact fixOk_mkdocs_exists
  · exact fixOk_diataxis_nav
  · exact fixOk_docs_plugins
  · exact fixOk_docs_gen_ref_pages
  · exact fixOk_readme
  · exact fixOk_src_layout
  · exact fixOk_py_typed
  · exact fixOk_tests_dir
  · exact fixOk_contributing
  · exact fixOk_license_file
  · exact fixOk_uv_lock
  · exact fixOk_python_version
  · exact fixOk_dev_deps
  · exact fixOk_docs_deps
  · exact fixOk_gitcliff_config
  · exact fixOk_no_manual_changelog

/-- Witness for `registry_failing_fix_nonempty`: the LICENSE check failing
on an empty project. -/
theorem registry_failing_fix_nonempty_witness :
    ({ name := "structure.license", category := "structure", passed := false,
       weight := 3, message := "LICENSE file not found", details := [],
       fix := "Create a LICENSE file (MIT, Apache-2.0, or EUPL-1.2)." } :
      CheckResult).fix ≠ "" :=
  registry_failing_fix_nonempty check_license_file
    (by simp [allChecksFlat, ALL_CHECKS]) emptyFS
    { name := "structure.license", category := "structure", passed := false,
      weight := 3, message := "LICENSE file not found", details := [],
      fix := "Create a LICENSE file (MIT, Apache-2.0, or EUPL-1.2)." }
    rfl rfl

/-- Helper: `fold_results` never produces the usage error. -/
theorem fold_results_not_usage (fs : FS) (p : String)
    (cats : List (String × List (FS → Except ReadErr CheckResult)))
    (m : String) : fold_results fs p cats ≠ .error (.usage m) := by
  unfold fold_results
  split <;> simp

/-- Helper: a successful sequential run returns one result per predicate. -/
theorem runChecksList_length (fs : FS) :
    ∀ (l : List (FS → Except ReadErr CheckResult)) (rs : List CheckResult),
      runChecksList fs l = .ok rs → rs.length = l.length := by
  intro l
  induction l with
  | nil =>
      intro rs h
      injection h with h
      subst h
      rfl
  | cons c cs ih =>
      intro rs h
      unfold runChecksList at h
      split at h
      · exact Except.noConfusion h
      · split at h
        · exact Except.noConfusion h
        · rename_i rs2 hrs
          injection h with h
          subst h
          simp [ih rs2 hrs]

/-- Helper: a successful fold carries one check per selected predicate. -/
theorem fold_results_ok_length (fs : FS) (p : String)
    (cats : List (String × List (FS → Except ReadErr CheckResult)))
    (pr : ProjectResult) (h : fold_results fs p cats = .ok pr) :
    pr.checks.length = ((cats.map fun q => q.2).flatten).length := by
  unfold fold_results at h
  split at h
  · exact Except.noConfusion h
  · rename_i rs hrs
    injection h with h
    subst h
    exact runChecksList_length fs _ rs hrs

/-- Helper: every registry category holds at least one predicate. -/
theorem all_checks_cat_nonempty : ∀ x ∈ ALL_CHECKS, 0 < x.2.length := by
  intro x hx
  fin_cases hx <;> simp

/-- Helper: a category outside the key set is not found in the registry. -/
theorem find?_none_of_not_mem_valid (c : String)
    (h : ¬ c ∈ VALID_CATEGORIES) :
    ALL_CHECKS.find? (fun q => q.1 == c) = none := by
  rw [List.find?_eq_none]
  intro x hx hbeq
  rw [beq_iff_eq] at hbeq
  exact h (hbeq ▸ List.mem_map_of_mem (fun q => q.1) hx)

/-- Helper: a category not found in the registry is outside the key set. -/
theorem not_mem_valid_of_find?_none (c : String)
    (h : ALL_CHECKS.find? (fun q => q.1 == c) = none) :
    ¬ c ∈ VALID_CATEGORIES := by
  intro hc
  rw [List.find?_eq_none] at h
  obtain ⟨x, hx, hxe⟩ := List.mem_map.mp hc
  exact absurd (beq_iff_eq.mpr hxe) (by simpa using h x hx)

/-- C5 (amended): `CheckEngine.run` raises the usage `ValueError` exactly
for a non-empty category outside the registry's key set, and that error
message carries the sorted list of all valid category names; whenever `run`
does return a `ProjectResult`, that result contains at least one check
(`run` may instead propagate a predicate's read exception). -/
theorem run_usage_error_spec :
    (∀ (fs : FS) (p c : String), c ≠ "" → ¬ c ∈ VALID_CATEGORIES →
      CheckEngine_run fs p (some c) =
        .error (.usage (unknown_category_msg c))) ∧
    (∀ (fs : FS) (p : String) (cat : Option String) (m : String),
      CheckEngine_run fs p cat = .error (.usage m) →
      ∃ c, cat = some c ∧ c ≠ "" ∧ ¬ c ∈ VALID_CATEGORIES ∧
        m = unknown_category_msg c) ∧
    (String.intercalate ", " (sortStrings VALID_CATEGORIES) =
      "changelog, ci, deps, docs, pyproject, structure, tooling") ∧
    (∀ (fs : FS) (p : String) (cat : Option String) (pr : ProjectResult),
      CheckEngine_run fs p cat = .ok pr → 0 < pr.checks.length) := by
  refine ⟨?_, ?_, by decide, ?_⟩
  · intro fs p c hne hnm
    simp only [CheckEngine_run]
    rw [if_neg hne, find?_none_of_not_mem_valid c hnm]
  · intro fs p cat m h
    cases cat with
    | none => exact absurd h (fold_results_not_usage fs p ALL_CHECKS m)
    | some c =>
        simp only [CheckEngine_run] at h
        by_cases hc : c = ""
        · rw [if_pos hc] at h
          exact absurd h (fold_results_not_usage fs p ALL_CHECKS m)
        · rw [if_neg hc] at h
          cases hfind : ALL_CHECKS.find? (fun q => q.1 == c) with
          | none =>
              rw [hfind] at h
              have hm : m = unknown_category_msg c := by
                injection h with h
                injection h with h
                exact h.symm
              exact ⟨c, rfl, hc, not_mem_valid_of_find?_none c hfind, hm⟩
          | some entry =>
              rw [hfind] at h
              exact absurd h (fold_results_not_usage fs p [entry] m)
  · intro fs p cat pr h
    cases cat with
    | none =>
        rw [show CheckEngine_run fs p none = fold_results fs p ALL_CHECKS
          from rfl] at h
        rw [fold_results_ok_length fs p ALL_CHECKS pr h]
        simp [ALL_CHECKS]
    | some c =>
        simp only [CheckEngine_run] at h
        by_cases hc : c = ""
        · rw [if_pos hc] at h
          rw [fold_results_ok_length fs p ALL_CHECKS pr h]
          simp [ALL_CHECKS]
        · rw [if_neg hc] at h
          cases hfind : ALL_CHECKS.find? (fun q => q.1 == c) with
          | none =>
              rw [hfind] at h
              exact Except.noConfusion h
          | some entry =>
              rw [hfind] at h
              have hlen := fold_results_ok_length fs p [entry] pr h
              have hpos := all_checks_cat_nonempty entry
                (List.mem_of_find?_eq_some hfind)
              rw [hlen]
              simpa using hpos

/-- Witness for `run_usage_error_spec`: the unknown category "bogus" and a
full run against the empty project. -/
theorem run_usage_error_spec_witness :
    CheckEngine_run emptyFS "/p" (some "bogus") =
      .error (.usage (unknown_category_msg "bogus")) ∧
    0 < emptyRunOk.checks.length :=
  ⟨run_usage_error_spec.1 emptyFS "/p" "bogus" (by decide) (by decide),
   run_usage_error_spec.2.2.2 emptyFS "/p" none emptyRunOk rfl⟩

/-- C5 counterexample: with no category given (a "valid" selection), a run
against a project whose `.pre-commit-config.yaml` is unreadable does not
return a `ProjectResult` — the predicate's `OSError` escapes. -/
theorem run_read_error_not_project_result :
    CheckEngine_run fsUnreadablePrecommit "/p" none =
      .error (.pred .os) := by rfl

/-- C6 (amended): predicates that parse `pyproject.toml` through
`_load_toml` (or their own `try`/`except`) convert read and parse failures
into normal failing results with a corrective fix, but predicates that call
`read_text()` directly (`.pre-commit-config.yaml`, `README.md`, `Makefile`,
CI workflow and mkdocs readers) let the exception escape. -/
theorem read_error_handling_spec :
    (∀ (fs : FS) (fd : FileNode), fs.pyproject = Entry.file fd →
      fd.toml = none →
      check_pyproject_exists fs = .ok
        { name := "pyproject.exists", category := "pyproject",
          passed := false, weight := 4,
          message := "pyproject.toml is unparsable",
          details := ["File exists but contains invalid TOML"],
          fix := "Fix TOML syntax errors in pyproject.toml." } ∧
      check_pyproject_urls fs = .ok
        { name := "pyproject.urls", category := "pyproject",
          passed := false, weight := 3,
          message := "pyproject.toml not found or unparsable",
          details := [],
          fix := "Create pyproject.toml with [project.urls] section." } ∧
      check_gitcliff_config fs = .ok
        { name := "changelog.gitcliff", category := "changelog",
          passed := false, weight := 3,
          message := "pyproject.toml unparsable", details := [],
          fix := "Fix TOML syntax and add [tool.git-cliff] section." }) ∧
    (∀ (fs : FS) (fd : FileNode) (e : ReadErr),
      fs.precommitConfig = Entry.file fd → fd.read = .error e →
      check_precommit_exists fs = .error e) ∧
    (∀ (fs : FS) (fd : FileNode) (e : ReadErr),
      fs.readme = Entry.file fd → fd.read = .error e →
      check_readme fs = .error e) ∧
    (∀ (fs : FS) (fd : FileNode) (e : ReadErr),
      fs.makefile = Entry.file fd → fd.read = .error e →
      check_makefile fs = .error e) := by
  refine ⟨?_, ?_, ?_, ?_⟩
  · intro fs fd h ht
    refine ⟨?_, ?_, ?_⟩ <;>
      simp [check_pyproject_exists, check_pyproject_urls,
        check_gitcliff_config, _load_toml, h, ht, Entry.exists?]
  · intro fs fd e h hr
    simp [check_precommit_exists, _read_precommit, h, hr, Entry.exists?,
      Entry.readText]
  · intro fs fd e h hr
    simp [check_readme, h, hr, Entry.exists?, Entry.readText]
  · intro fs fd e h hr
    simp [check_makefile, h, hr, Entry.exists?, Entry.readText]

/-- Witness for `read_error_handling_spec` at four concrete degenerate
projects. -/
theorem read_error_handling_spec_witness :
    (check_pyproject_exists fsUnreadablePyproject = .ok
      { name := "pyproject.exists", category := "pyproject",
        passed := false, weight := 4,
        message := "pyproject.toml is unparsable",
        details := ["File exists but contains invalid TOML"],
        fix := "Fix TOML syntax errors in pyproject.toml." }) ∧
    check_precommit_exists fsUnreadablePrecommit = .error .os ∧
    check_readme fsUnreadableReadme = .error .decode ∧
    check_makefile fsUnreadableMakefile = .error .os :=
  ⟨(read_error_handling_spec.1 fsUnreadablePyproject
      ⟨Except.error ReadErr.os, none⟩ rfl rfl).1,
   read_error_handling_spec.2.1 fsUnreadablePrecommit
      ⟨Except.error ReadErr.os, none⟩ ReadErr.os rfl rfl,
   read_error_handling_spec.2.2.1 fsUnreadableReadme
      ⟨Except.error ReadErr.decode, none⟩ ReadErr.decode rfl rfl,
   read_error_handling_spec.2.2.2 fsUnreadableMakefile
      ⟨Except.error ReadErr.os, none⟩ ReadErr.os rfl rfl⟩

/-- C6 counterexample: a permission error reading an existing
`.pre-commit-config.yaml` escapes `check_precommit_exists` as an exception
instead of becoming a failing `CheckResult`. -/
theorem precommit_read_error_escapes :
    check_precommit_exists fsUnreadablePrecommit = .error .os := by rfl

/-- C7 (amended): `from_checks` derives `score` and `grade` purely from
`checks` (the path argument does not influence them, and `grade` is
`compute_grade` of `score`); inconsistent direct construction is possible,
see `inconsistent_project_result_constructible`. -/
theorem from_checks_pure_of_checks (p q : String) (cs : List CheckResult) :
    (ProjectResult.from_checks p cs).score =
      (ProjectResult.from_checks q cs).score ∧
    (ProjectResult.from_checks p cs).grade =
      compute_grade (ProjectResult.from_checks p cs).score ∧
    (ProjectResult.from_checks p cs).checks = cs :=
  ⟨rfl, rfl, rfl⟩

/-- C7 counterexample: pydantic keyword construction of `ProjectResult`
accepts a `score`/`grade` inconsistent with `checks` (there is no
cross-field validator). -/
theorem inconsistent_project_result_constructible :
    validateProjectResult
      [("project_path", .ppath "/p"), ("checks", .pchecks []),
       ("score", .pint 55), ("grade", .pgrade Grade.A),
       ("categories", .pcats []), ("failures", .pchecks [])] =
      some inconsistentPR ∧
    inconsistentPR.score ≠ (ProjectResult.from_checks
      inconsistentPR.project_path inconsistentPR.checks).score ∧
    inconsistentPR.grade ≠ (ProjectResult.from_checks
      inconsistentPR.project_path inconsistentPR.checks).grade := by
  refine ⟨rfl, ?_, ?_⟩ <;> decide

/-- C8: `format_agent` has exactly the top-level keys
`score, grade, passed_count, failed` (no "passed" key anywhere),
`passed_count` counts the passing checks, and `failed` maps the failures
one-to-one, in order, to objects with exactly the keys
`name, message, details, fix`. -/
theorem format_agent_spec (r : ProjectResult) (f : CheckResult) (p : String)
    (cs : List CheckResult) :
    ((format_agent r).map fun q => q.1) =
      ["score", "grade", "passed_count", "failed"] ∧
    ¬ "passed" ∈ ((format_agent r).map fun q => q.1) ∧
    (format_agent r).lookup "passed_count" =
      some (.jint (r.checks.countP fun c => c.passed)) ∧
    (format_agent r).lookup "failed" =
      some (.jarr (r.failures.map failedEntry)) ∧
    (failedEntry f).objKeys = ["name", "message", "details", "fix"] ∧
    ¬ "passed" ∈ (failedEntry f).objKeys ∧
    failedEntry f = JVal.jobj
      [("name", .jstr f.name), ("message", .jstr f.message),
       ("details", .jarr (f.details.map JVal.jstr)), ("fix", .jstr f.fix)] ∧
    (ProjectResult.from_checks p cs).failures =
      cs.filter fun c => !c.passed := by
  refine ⟨rfl, ?_, rfl, rfl, rfl, ?_, rfl, rfl⟩
  · rw [show ((format_agent r).map fun q => q.1) =
      ["score", "grade", "passed_count", "failed"] from rfl]
    decide
  · rw [show (failedEntry f).objKeys =
      ["name", "message", "details", "fix"] from rfl]
    decide

/-- C9 evaluation: `CheckResult` construction accepts and silently ignores
an unknown keyword (`model_config` is absent, so pydantic's default
`extra="ignore"` applies), contradicting the closed-schema claim and the
repo's own `test_extra_forbidden` test. -/
theorem check_result_extra_field_ignored :
    validateCheckResult
      [("name", .fstr "x"), ("category", .fstr "y"),
       ("passed", .fbool true), ("weight", .fint 1),
       ("message", .fstr "m"), ("details", .flist []),
       ("fix", .fstr ""), ("typo_field", .fstr "should fail")] =
      some { name := "x", category := "y", passed := true, weight := 1,
             message := "m", details := [], fix := "" } := by rfl

/-- C3 evaluation: the weights of the 39 predicates of the full registry
sum to 102, not 100 (the tooling module carries 16 points over 7 checks
although its docstring still says "6 checks, 14 pts"). -/
theorem registry_weight_sum_eval :
    registryWeightSum = 102 ∧ registryWeightSum ≠ 100 := by
  refine ⟨?_, ?_⟩ <;> decide

/-- C10: on any project without a `.pre-commit-config.yaml`,
`check_precommit_installed` passes outright with its full weight 2, while
`check_precommit_exists` fails on the same directory. -/
theorem precommit_installed_vacuous_pass (fs : FS)
    (h : fs.precommitConfig = Entry.absent) :
    check_precommit_installed fs = .ok
      { name := "tooling.precommit_installed", category := "tooling",
        passed := true, weight := 2,
        message := "No pre-commit config (nothing to install)",
        details := [], fix := "" } ∧
    check_precommit_exists fs = .ok
      { name := "tooling.precommit_exists", category := "tooling",
        passed := false, weight := 3,
        message := ".pre-commit-config.yaml not found", details := [],
        fix := "Create .pre-commit-config.yaml with ruff, mypy, and conventional-commit hooks." } := by
  constructor
  · simp [check_precommit_installed, h, Entry.exists?]
  · simp [check_precommit_exists, _read_precommit, h, Entry.exists?]

/-- Witness for `precommit_installed_vacuous_pass` at the empty project. -/
theorem precommit_installed_vacuous_pass_witness :
    check_precommit_installed emptyFS = .ok
      { name := "tooling.precommit_installed", category := "tooling",
        passed := true, weight := 2,
        message := "No pre-commit config (nothing to install)",
        details := [], fix := "" } ∧
    check_precommit_exists emptyFS = .ok
      { name := "tooling.precommit_exists", category := "tooling",
        passed := false, weight := 3,
        message := ".pre-commit-config.yaml not found", details := [],
        fix := "Create .pre-commit-config.yaml with ruff, mypy, and conventional-commit hooks." } :=
  precommit_installed_vacuous_pass emptyFS rfl
